import Mathlib

set_option autoImplicit false

/-!
The shared-memory mailbox of the out-of-process interpreter bridge.

A shallow embedding of `xshared_memory.hpp` (the `SharedMemoryBuffer` record),
of the host controller `CppInterOpClient` (`xcppinterop_client.hpp`) and of the
worker `CppInterOpProcess` (`xcppinterop_process.cpp`).

Conventions of the embedding.

* A byte is a natural number (`char` values are the naturals below 256; nothing
  below depends on the bound, so the statements are made for all naturals).
* A `char[N]` array is a list of bytes; `memcpy`, `memset` and the indexed store
  act on it positionwise and keep its length.
* `uint32_t` fields are naturals reduced modulo `2 ^ 32` where they are assigned.
* `std::string` is a list of bytes (it may contain zero bytes).
* The answers of the operating system and of the interpreter library are parameters of
  the functions that ask for them; the system calls a function makes are returned in
  order as a list of `SysCall`.
-/

/-- One `char` of a buffer or of a `std::string`. -/
abbrev Byte := Nat

/-- The modulus of `uint32_t`. -/
def UINT32_SIZE : Nat := 4294967296

/-- The byte `'\n'`. -/
def NEWLINE : Byte := 10

/-- The array `std::string::c_str()` points to: the bytes of the string followed by a
terminating zero byte. -/
def c_str (s : List Byte) : List Byte := s ++ [0]

/-- The call `memcpy(dst, src, n)`: the first `n` bytes of `dst` are overwritten by the
first `n` bytes of `src`. -/
def memcpy (dst src : List Byte) (n : Nat) : List Byte := src.take n ++ dst.drop n

/-- The call `memset(dst, c, n)`: the first `n` bytes of `dst` are overwritten by `c`. -/
def memset (dst : List Byte) (c : Byte) (n : Nat) : List Byte := List.replicate n c ++ dst.drop n

/-- The constructor `std::string(ptr, n)`: a copy of the first `n` bytes at `ptr`. -/
def string_of (buf : List Byte) (n : Nat) : List Byte := buf.take n

/-- The loop `while (std::getline(iss, line)) result.push_back(line);` run on the rest of
the stream, `line` holding the bytes the current `getline` call has extracted so far.
A call that meets the delimiter discards it and succeeds; a call that meets the end of
the stream succeeds when it has extracted at least one byte and fails (ending the loop)
when it has extracted none. -/
def getline_loop : List Byte → List Byte → List (List Byte)
  | [], line => if line.isEmpty then [] else [line]
  | c :: rest, line =>
    if c = NEWLINE then line :: getline_loop rest [] else getline_loop rest (line ++ [c])

namespace SharedMemoryBuffer

/-- Capacity of the code buffer: 16 KiB. -/
def MAX_CODE_SIZE : Nat := 16 * 1024
/-- Capacity of the output buffer: 16 KiB. -/
def MAX_OUTPUT_SIZE : Nat := 16 * 1024
/-- Capacity of the error buffer: 8 KiB. -/
def MAX_ERROR_SIZE : Nat := 8 * 1024
/-- Capacity of the completion buffer: 8 KiB. -/
def MAX_COMPLETION_SIZE : Nat := 8 * 1024

/-- The request kinds of `enum class RequestType`. -/
inductive RequestType where
  | NONE
  | PROCESS_CODE
  | CODE_COMPLETE
  | EVALUATE
  | SHUTDOWN
  deriving DecidableEq, Repr

/-- The response statuses of `enum class ResponseStatus`. -/
inductive ResponseStatus where
  | NONE
  | SUCCESS
  | COMPILATION_ERROR
  | RUNTIME_ERROR
  | SYSTEM_ERROR
  deriving DecidableEq, Repr

end SharedMemoryBuffer

open SharedMemoryBuffer in
/-- The record `struct SharedMemoryBuffer`, field by field. -/
structure SharedMemoryBuffer where
  request_ready : Bool
  response_ready : Bool
  request_type : RequestType
  response_status : ResponseStatus
  code_buffer : List Byte
  code_length : Nat
  cursor_pos : Int
  output_buffer : List Byte
  error_buffer : List Byte
  output_length : Nat
  error_length : Nat
  compilation_result : Bool
  evaluation_result : Int
  completion_buffer : List Byte
  completion_length : Nat
  deriving DecidableEq, Repr

namespace SharedMemoryBuffer

/-- The four arrays have their declared sizes. -/
def WellSized (b : SharedMemoryBuffer) : Prop :=
  b.code_buffer.length = MAX_CODE_SIZE ∧ b.output_buffer.length = MAX_OUTPUT_SIZE ∧
  b.error_buffer.length = MAX_ERROR_SIZE ∧ b.completion_buffer.length = MAX_COMPLETION_SIZE

/-- The method `reset()`. -/
def reset (b : SharedMemoryBuffer) : SharedMemoryBuffer :=
  { request_ready := false
    response_ready := false
    request_type := RequestType.NONE
    response_status := ResponseStatus.NONE
    code_length := 0
    output_length := 0
    error_length := 0
    completion_length := 0
    cursor_pos := 0
    compilation_result := false
    evaluation_result := 0
    code_buffer := memset b.code_buffer 0 MAX_CODE_SIZE
    output_buffer := memset b.output_buffer 0 MAX_OUTPUT_SIZE
    error_buffer := memset b.error_buffer 0 MAX_ERROR_SIZE
    completion_buffer := memset b.completion_buffer 0 MAX_COMPLETION_SIZE }

/-- The method `set_code(code)`. -/
def set_code (b : SharedMemoryBuffer) (code : List Byte) : SharedMemoryBuffer :=
  let code_length := min code.length (MAX_CODE_SIZE - 1) % UINT32_SIZE
  { b with
    code_length := code_length
    code_buffer := (memcpy b.code_buffer (c_str code) code_length).set code_length 0 }

/-- The method `get_code()`. -/
def get_code (b : SharedMemoryBuffer) : List Byte := string_of b.code_buffer b.code_length

/-- The method `set_output(output)`. -/
def set_output (b : SharedMemoryBuffer) (output : List Byte) : SharedMemoryBuffer :=
  let output_length := min output.length (MAX_OUTPUT_SIZE - 1) % UINT32_SIZE
  { b with
    output_length := output_length
    output_buffer := (memcpy b.output_buffer (c_str output) output_length).set output_length 0 }

/-- The method `get_output()`. -/
def get_output (b : SharedMemoryBuffer) : List Byte := string_of b.output_buffer b.output_length

/-- The method `set_error(error)`. -/
def set_error (b : SharedMemoryBuffer) (error : List Byte) : SharedMemoryBuffer :=
  let error_length := min error.length (MAX_ERROR_SIZE - 1) % UINT32_SIZE
  { b with
    error_length := error_length
    error_buffer := (memcpy b.error_buffer (c_str error) error_length).set error_length 0 }

/-- The method `get_error()`. -/
def get_error (b : SharedMemoryBuffer) : List Byte := string_of b.error_buffer b.error_length

/-- The loop of `set_completions` that builds `combined`: a `"\n"` is appended before an
entry exactly when `combined` is not empty at that point. -/
def combine (completions : List (List Byte)) : List Byte :=
  completions.foldl
    (fun combined comp => (if !combined.isEmpty then combined ++ [NEWLINE] else combined) ++ comp)
    []

/-- The method `set_completions(completions)`. -/
def set_completions (b : SharedMemoryBuffer) (completions : List (List Byte)) :
    SharedMemoryBuffer :=
  let combined := combine completions
  let completion_length := min combined.length (MAX_COMPLETION_SIZE - 1) % UINT32_SIZE
  { b with
    completion_length := completion_length
    completion_buffer :=
      (memcpy b.completion_buffer (c_str combined) completion_length).set completion_length 0 }

/-- The method `get_completions()`. -/
def get_completions (b : SharedMemoryBuffer) : List (List Byte) :=
  getline_loop (string_of b.completion_buffer b.completion_length) []

end SharedMemoryBuffer

open SharedMemoryBuffer

/-- A mailbox whose arrays have their declared sizes and whose every byte and field is
zero: the content of a freshly created, zero-filled segment. -/
def zeroed_buffer : SharedMemoryBuffer :=
  { request_ready := false
    response_ready := false
    request_type := RequestType.NONE
    response_status := ResponseStatus.NONE
    code_buffer := List.replicate MAX_CODE_SIZE 0
    code_length := 0
    cursor_pos := 0
    output_buffer := List.replicate MAX_OUTPUT_SIZE 0
    error_buffer := List.replicate MAX_ERROR_SIZE 0
    output_length := 0
    error_length := 0
    compilation_result := false
    evaluation_result := 0
    completion_buffer := List.replicate MAX_COMPLETION_SIZE 0
    completion_length := 0 }

/-- The bytes of an ASCII string literal of the source. -/
def bytes_of (s : String) : List Byte := s.toList.map Char.toNat

/-- What a callee sees through a `const char*` obtained from `c_str()`: the bytes before
the first zero byte. -/
def as_c_string (s : List Byte) : List Byte := s.takeWhile (fun c => c ≠ 0)

/-- The value of a `SharedMemoryBuffer*` member: `nullptr`, `MAP_FAILED`, or the address
of a mapping, given with the current content of the mapped record. -/
inductive Mapping where
  | null
  | map_failed
  | mapped (buf : SharedMemoryBuffer)
  deriving DecidableEq, Repr

/-- Why a modelled call gives no return value. -/
inductive Abort where
  /-- The call dereferences `m_shared_buffer` while it is not the address of a mapping. -/
  | invalid_pointer
  /-- The observations handed to `waitForResponse` are used up while its loop still runs. -/
  | still_waiting
  deriving DecidableEq, Repr

/-- What the host observes in one cycle of the loop of `waitForResponse`. -/
structure Poll where
  /-- The content of the mailbox when the loop condition loads `response_ready`. -/
  buffer : SharedMemoryBuffer
  /-- The milliseconds `now - start` read from the steady clock. -/
  now_ms : Int
  /-- The value returned by `waitpid(m_child_pid, &status, WNOHANG)`. -/
  waitpid_result : Int
  deriving DecidableEq, Repr

/-- The members of `class CppInterOpClient`, and the function-local
`static int elapsed_ms` of `waitForResponse`. -/
structure CppInterOpClient where
  m_shared_buffer : Mapping
  m_shm_fd : Int
  m_shm_name : String
  m_child_pid : Int
  m_initialized : Bool
  elapsed_ms : Int
  deriving DecidableEq, Repr

namespace CppInterOpClient

/-- The loop of `waitForResponse`, one observation per evaluation of the loop condition;
`elapsed_ms` is the static counter. The result is the returned boolean, the mailbox
content last observed and the final value of the counter. -/
def waitForResponse_loop (timeout_ms : Int) :
    Int → List Poll → Except Abort (Bool × SharedMemoryBuffer × Int)
  | _, [] => .error Abort.still_waiting
  | elapsed_ms, p :: ps =>
    if p.buffer.response_ready then .ok (true, p.buffer, elapsed_ms)
    else if p.now_ms > timeout_ms then .ok (false, p.buffer, elapsed_ms)
    else
      let elapsed_ms := if p.waitpid_result ≠ 0 then elapsed_ms + 1 else 0
      if elapsed_ms > 100000 then .ok (false, p.buffer, elapsed_ms)
      else waitForResponse_loop timeout_ms (elapsed_ms + 1) ps

/-- The default argument of `waitForResponse`: `timeout_ms = 100000`. -/
def DEFAULT_TIMEOUT_MS : Int := 100000

/-- The method `waitForResponse(timeout_ms)`. -/
def waitForResponse (h : CppInterOpClient) (polls : List Poll) (timeout_ms : Int) :
    Except Abort (Bool × CppInterOpClient) :=
  match h.m_shared_buffer with
  | Mapping.mapped _ =>
    match waitForResponse_loop timeout_ms h.elapsed_ms polls with
    | .error e => .error e
    | .ok (r, buf, elapsed_ms) =>
      .ok (r, { h with m_shared_buffer := Mapping.mapped buf, elapsed_ms := elapsed_ms })
  | _ => .error Abort.invalid_pointer

/-- The request write of `processCode`: `reset()`, `set_code(code)`, the store of the
request kind and the store of `request_ready`. -/
def processCode_request (buf : SharedMemoryBuffer) (code : List Byte) : SharedMemoryBuffer :=
  let buf := buf.reset
  let buf := buf.set_code code
  let buf := { buf with request_type := RequestType.PROCESS_CODE }
  { buf with request_ready := true }

/-- The request write of `codeComplete`. -/
def codeComplete_request (buf : SharedMemoryBuffer) (code : List Byte) (cursor_pos : Int) :
    SharedMemoryBuffer :=
  let buf := buf.reset
  let buf := buf.set_code code
  let buf := { buf with cursor_pos := cursor_pos }
  let buf := { buf with request_type := RequestType.CODE_COMPLETE }
  { buf with request_ready := true }

/-- The request write of `evaluate`. -/
def evaluate_request (buf : SharedMemoryBuffer) (code : List Byte) : SharedMemoryBuffer :=
  let buf := buf.reset
  let buf := buf.set_code code
  let buf := { buf with request_type := RequestType.EVALUATE }
  { buf with request_ready := true }

/-- The method `processCode(code, output, error)`: the returned boolean, the final values
of the out-parameters `output` and `error`, and the host afterwards. -/
def processCode (h : CppInterOpClient) (code output error : List Byte) (polls : List Poll) :
    Except Abort (Bool × List Byte × List Byte × CppInterOpClient) :=
  if !h.m_initialized then .ok (false, output, error, h)
  else
    match h.m_shared_buffer with
    | Mapping.mapped buf =>
      let h := { h with m_shared_buffer := Mapping.mapped (processCode_request buf code) }
      match h.waitForResponse polls DEFAULT_TIMEOUT_MS with
      | .error e => .error e
      | .ok (false, h) => .ok (false, output, error, h)
      | .ok (true, h) =>
        match h.m_shared_buffer with
        | Mapping.mapped buf =>
          let output := buf.get_output
          let error := buf.get_error
          .ok (decide (buf.response_status = ResponseStatus.SUCCESS), output, error, h)
        | _ => .error Abort.invalid_pointer
    | _ => .error Abort.invalid_pointer

/-- The method `codeComplete(code, cursor_pos, results)`: the returned boolean, the final
value of the out-parameter `results`, and the host afterwards. -/
def codeComplete (h : CppInterOpClient) (code : List Byte) (cursor_pos : Int)
    (results : List (List Byte)) (polls : List Poll) :
    Except Abort (Bool × List (List Byte) × CppInterOpClient) :=
  if !h.m_initialized then .ok (false, results, h)
  else
    match h.m_shared_buffer with
    | Mapping.mapped buf =>
      let h :=
        { h with m_shared_buffer := Mapping.mapped (codeComplete_request buf code cursor_pos) }
      match h.waitForResponse polls DEFAULT_TIMEOUT_MS with
      | .error e => .error e
      | .ok (false, h) => .ok (false, results, h)
      | .ok (true, h) =>
        match h.m_shared_buffer with
        | Mapping.mapped buf =>
          let results := buf.get_completions
          .ok (decide (buf.response_status = ResponseStatus.SUCCESS), results, h)
        | _ => .error Abort.invalid_pointer
    | _ => .error Abort.invalid_pointer

/-- The method `evaluate(code, result)`: the returned boolean, the final value of the
out-parameter `result`, and the host afterwards. -/
def evaluate (h : CppInterOpClient) (code : List Byte) (result : Int) (polls : List Poll) :
    Except Abort (Bool × Int × CppInterOpClient) :=
  if !h.m_initialized then .ok (false, result, h)
  else
    match h.m_shared_buffer with
    | Mapping.mapped buf =>
      let h := { h with m_shared_buffer := Mapping.mapped (evaluate_request buf code) }
      match h.waitForResponse polls DEFAULT_TIMEOUT_MS with
      | .error e => .error e
      | .ok (false, h) => .ok (false, result, h)
      | .ok (true, h) =>
        match h.m_shared_buffer with
        | Mapping.mapped buf =>
          if buf.response_status = ResponseStatus.SUCCESS then
            .ok (true, buf.evaluation_result, h)
          else .ok (false, result, h)
        | _ => .error Abort.invalid_pointer
    | _ => .error Abort.invalid_pointer

end CppInterOpClient

/-- The entry points of the embedded interpreter the worker calls, as functions of their
arguments. A `std::exception` thrown by an entry point is the error case and carries the
text of `what()`. -/
structure Interpreter where
  /-- The calls `BeginStdStreamCapture` (twice), `Process(code)` and `EndStdStreamCapture`
  (twice): the boolean returned by `Process`, the captured stdout and the captured
  stderr. -/
  Process : List Byte → Except (List Byte) (Bool × List Byte × List Byte)
  /-- The call `CodeComplete(results, code, line, column)`: the final `results`. -/
  CodeComplete : List Byte → Int → Int → Except (List Byte) (List (List Byte))
  /-- The call `Evaluate(code)`. -/
  Evaluate : List Byte → Except (List Byte) Int

/-- The members of `class CppInterOpProcess`; `m_interpreter` records whether the
pointer is non-null. -/
structure CppInterOpProcess where
  m_interpreter : Bool
  m_shared_buffer : Mapping
  m_shm_fd : Int
  m_running : Bool
  m_shm_name : String
  m_shm_size : Nat
  deriving DecidableEq, Repr

namespace CppInterOpProcess

/-- The method `processCode()` of the worker, on the content of the mailbox. -/
def processCode (I : Interpreter) (m_interpreter : Bool) (buf : SharedMemoryBuffer) :
    SharedMemoryBuffer :=
  let code := buf.get_code
  if !m_interpreter then
    let buf := { buf with response_status := ResponseStatus.SYSTEM_ERROR }
    buf.set_error (bytes_of "Interpreter not initialized")
  else
    match I.Process (as_c_string code) with
    | .ok (compilation_result, output, error) =>
      let buf := { buf with compilation_result := compilation_result }
      let buf := buf.set_output output
      let buf := buf.set_error error
      if !compilation_result then
        { buf with response_status := ResponseStatus.COMPILATION_ERROR }
      else { buf with response_status := ResponseStatus.SUCCESS }
    | .error what =>
      let buf := { buf with response_status := ResponseStatus.SYSTEM_ERROR }
      buf.set_error (bytes_of "Code processing exception: " ++ what)

/-- The method `processCodeCompletion()`, on the content of the mailbox. -/
def processCodeCompletion (I : Interpreter) (m_interpreter : Bool) (buf : SharedMemoryBuffer) :
    SharedMemoryBuffer :=
  if !m_interpreter then
    let buf := { buf with response_status := ResponseStatus.SYSTEM_ERROR }
    buf.set_error (bytes_of "Interpreter not initialized")
  else
    let code := buf.get_code
    let cursor_pos := buf.cursor_pos
    match I.CodeComplete (as_c_string code) 1 (cursor_pos + 1) with
    | .ok results =>
      let buf := buf.set_completions results
      { buf with response_status := ResponseStatus.SUCCESS }
    | .error what =>
      let buf := { buf with response_status := ResponseStatus.SYSTEM_ERROR }
      buf.set_error (bytes_of "Code completion exception: " ++ what)

/-- The method `processEvaluation()`, on the content of the mailbox. -/
def processEvaluation (I : Interpreter) (m_interpreter : Bool) (buf : SharedMemoryBuffer) :
    SharedMemoryBuffer :=
  if !m_interpreter then
    let buf := { buf with response_status := ResponseStatus.SYSTEM_ERROR }
    buf.set_error (bytes_of "Interpreter not initialized")
  else
    let code := buf.get_code
    match I.Evaluate (as_c_string code) with
    | .ok result =>
      let buf := { buf with evaluation_result := result }
      { buf with response_status := ResponseStatus.SUCCESS }
    | .error what =>
      let buf := { buf with response_status := ResponseStatus.RUNTIME_ERROR }
      buf.set_error (bytes_of "Evaluation exception: " ++ what)

/-- The method `processRequest()`. The handlers catch every `std::exception` themselves,
so the outer handler of `processRequest` is never entered; the `default:` branch is the
one taken for `NONE`. -/
def processRequest (I : Interpreter) (w : CppInterOpProcess) : Except Abort CppInterOpProcess :=
  match w.m_shared_buffer with
  | Mapping.mapped buf =>
    match buf.request_type with
    | RequestType.PROCESS_CODE =>
      .ok { w with m_shared_buffer := Mapping.mapped (processCode I w.m_interpreter buf) }
    | RequestType.CODE_COMPLETE =>
      .ok { w with
            m_shared_buffer := Mapping.mapped (processCodeCompletion I w.m_interpreter buf) }
    | RequestType.EVALUATE =>
      .ok { w with m_shared_buffer := Mapping.mapped (processEvaluation I w.m_interpreter buf) }
    | RequestType.SHUTDOWN =>
      .ok { w with
            m_running := false
            m_shared_buffer :=
              Mapping.mapped { buf with response_status := ResponseStatus.SUCCESS } }
    | RequestType.NONE =>
      let buf := { buf with response_status := ResponseStatus.SYSTEM_ERROR }
      .ok { w with
            m_shared_buffer := Mapping.mapped (buf.set_error (bytes_of "Unknown request type")) }
  | _ => .error Abort.invalid_pointer

/-- The body of one iteration of the loop of `run()` (the sleep apart). -/
def run_iteration (I : Interpreter) (w : CppInterOpProcess) : Except Abort CppInterOpProcess :=
  match w.m_shared_buffer with
  | Mapping.mapped buf =>
    if buf.request_ready then
      match processRequest I w with
      | .error e => .error e
      | .ok w =>
        match w.m_shared_buffer with
        | Mapping.mapped buf =>
          let buf := { buf with request_ready := false }
          let buf := { buf with response_ready := true }
          .ok { w with m_shared_buffer := Mapping.mapped buf }
        | _ => .error Abort.invalid_pointer
    else .ok w
  | _ => .error Abort.invalid_pointer

end CppInterOpProcess

/-! ## Specification-side definitions -/

/-- The serialized form of a completion list in the words of the specification: the
entries joined with a single `'\n'` between consecutive entries and no trailing
separator; the empty list gives the empty string. -/
def newline_joined : List (List Byte) → List Byte
  | [] => []
  | [x] => x
  | x :: y :: rest => x ++ NEWLINE :: newline_joined (y :: rest)

/-- Every entry preceded by one `'\n'`: what follows the first entry in the joined form. -/
def tail_joined : List (List Byte) → List Byte
  | [] => []
  | x :: rest => NEWLINE :: (x ++ tail_joined rest)

/-- The mailbox states reachable from a `reset()` state by `reset` and the four setters,
called with arbitrary arguments. -/
inductive Reachable : SharedMemoryBuffer → Prop where
  | start (b : SharedMemoryBuffer) : Reachable b.reset
  | reset {b : SharedMemoryBuffer} : Reachable b → Reachable b.reset
  | set_code {b : SharedMemoryBuffer} (s : List Byte) : Reachable b → Reachable (b.set_code s)
  | set_output {b : SharedMemoryBuffer} (s : List Byte) :
      Reachable b → Reachable (b.set_output s)
  | set_error {b : SharedMemoryBuffer} (s : List Byte) : Reachable b → Reachable (b.set_error s)
  | set_completions {b : SharedMemoryBuffer} (xs : List (List Byte)) :
      Reachable b → Reachable (b.set_completions xs)

namespace SharedMemoryBuffer

/-- Invariant 1 of the mailbox: each length is at most the capacity of its buffer minus
one, and the last byte of each buffer is zero. -/
def Bounded (b : SharedMemoryBuffer) : Prop :=
  (b.code_length ≤ MAX_CODE_SIZE - 1 ∧ b.output_length ≤ MAX_OUTPUT_SIZE - 1 ∧
    b.error_length ≤ MAX_ERROR_SIZE - 1 ∧ b.completion_length ≤ MAX_COMPLETION_SIZE - 1) ∧
  (b.code_buffer[MAX_CODE_SIZE - 1]? = some 0 ∧ b.output_buffer[MAX_OUTPUT_SIZE - 1]? = some 0 ∧
    b.error_buffer[MAX_ERROR_SIZE - 1]? = some 0 ∧
    b.completion_buffer[MAX_COMPLETION_SIZE - 1]? = some 0)

/-- All response fields are zeroed: the status is `NONE`, the three response lengths are
zero, the two results are `false` and `0`, and every byte of the three response buffers is
zero. -/
def ResponseZeroed (b : SharedMemoryBuffer) : Prop :=
  b.response_status = ResponseStatus.NONE ∧
  (b.output_length = 0 ∧ b.error_length = 0 ∧ b.completion_length = 0) ∧
  (b.compilation_result = false ∧ b.evaluation_result = 0) ∧
  (b.output_buffer.take MAX_OUTPUT_SIZE = List.replicate MAX_OUTPUT_SIZE 0 ∧
    b.error_buffer.take MAX_ERROR_SIZE = List.replicate MAX_ERROR_SIZE 0 ∧
    b.completion_buffer.take MAX_COMPLETION_SIZE = List.replicate MAX_COMPLETION_SIZE 0)

end SharedMemoryBuffer

/-- The constructor `CppInterOpClient()`, `pid` being the value of `getpid()`. -/
def CppInterOpClient.construct (pid : Nat) : CppInterOpClient :=
  { m_shared_buffer := Mapping.null
    m_shm_fd := -1
    m_child_pid := -1
    m_initialized := false
    m_shm_name := "/xcpp_shm_" ++ toString pid
    elapsed_ms := 0 }

/-- A host after a successful start: the segment is mapped and zero-filled, the child
runs, `m_initialized` is set. -/
def sample_host : CppInterOpClient :=
  { CppInterOpClient.construct 100 with
    m_shared_buffer := Mapping.mapped zeroed_buffer
    m_shm_fd := 3
    m_child_pid := 101
    m_initialized := true }

/-- A worker attached to a mailbox with content `buf`, its interpreter created. -/
def sample_worker (buf : SharedMemoryBuffer) : CppInterOpProcess :=
  { m_interpreter := true
    m_shared_buffer := Mapping.mapped buf
    m_shm_fd := 3
    m_running := true
    m_shm_name := "/xcpp_shm_100"
    m_shm_size := 65536 }

/-- The response of a worker whose compilation failed with the diagnostic `"err"`. -/
def compile_error_response : SharedMemoryBuffer :=
  { zeroed_buffer.set_error [101, 114, 114] with
    response_status := ResponseStatus.COMPILATION_ERROR
    response_ready := true }

/-- An interpreter whose evaluator gives 42 for the source `"40 + 2"` and throws for
every other source. -/
def sample_interpreter : Interpreter :=
  { Process := fun _ => .ok (true, [], [])
    CodeComplete := fun _ _ _ => .ok []
    Evaluate := fun src =>
      if src = [52, 48, 32, 43, 32, 50] then .ok 42 else .error [98, 97, 100] }

/-! ## The lifecycle of the host: system calls, start and teardown -/

/-- The signals the host sends and the worker handles. -/
inductive Signal where
  | SIGINT
  | SIGTERM
  | SIGKILL
  deriving DecidableEq, Repr

/-- The system calls made on the segment, the mapping and the child process, each with
the arguments that matter and, where the code reads it, the value the call returned.
The pipe that carries the log of the child and its descriptors are left out. -/
inductive SysCall where
  | shm_unlink (name : String)
  | shm_open (name : String) (result : Int)
  | ftruncate (fd : Int) (result : Int)
  | mmap (fd : Int) (succeeded : Bool)
  | munmap
  | close (fd : Int)
  | pipe (result : Int)
  | fork (result : Int)
  | kill (pid : Int) (sig : Signal)
  | waitpid (pid : Int) (nohang : Bool) (result : Int)
  deriving DecidableEq, Repr

/-- The answers of the operating system to the calls of the host's `initialize()`. -/
structure InitAnswers where
  /-- The descriptor returned by `shm_open`, or `-1`. -/
  shm_open : Int
  /-- The value returned by `ftruncate`: `0`, or `-1`. -/
  ftruncate : Int
  /-- The content of the mapped record when `mmap` succeeds; `none` for `MAP_FAILED`. -/
  mmap : Option SharedMemoryBuffer
  /-- The value returned by `pipe`: `0`, or `-1`. -/
  pipe : Int
  /-- The value returned by `fork`: the pid of the child, `0` in the child, or `-1`. -/
  fork : Int
  /-- The value returned by `waitpid(m_child_pid, &status, WNOHANG)` after the startup
  grace: `0` while the child runs, the pid of the child when it has exited. -/
  waitpid : Int

namespace CppInterOpClient

/-- The method `initialize()` of the host: the returned boolean, the host afterwards and
the system calls made, in order. The result is `none` in the child process, where the call
ends in `execl` or `exit(1)` and never returns. -/
def initialize_host (h : CppInterOpClient) (os : InitAnswers) :
    Option (Bool × CppInterOpClient × List SysCall) :=
  let calls := [SysCall.shm_unlink h.m_shm_name]
  let h := { h with m_shm_fd := os.shm_open }
  let calls := calls ++ [SysCall.shm_open h.m_shm_name os.shm_open]
  if h.m_shm_fd = -1 then some (false, h, calls)
  else
    let calls := calls ++ [SysCall.ftruncate h.m_shm_fd os.ftruncate]
    if os.ftruncate = -1 then some (false, h, calls)
    else
      match os.mmap with
      | none =>
        some (false, { h with m_shared_buffer := Mapping.map_failed },
          calls ++ [SysCall.mmap h.m_shm_fd false])
      | some content =>
        let calls := calls ++ [SysCall.mmap h.m_shm_fd true]
        let h := { h with m_shared_buffer := Mapping.mapped content.reset }
        let calls := calls ++ [SysCall.pipe os.pipe]
        if os.pipe = -1 then some (false, h, calls)
        else
          let h := { h with m_child_pid := os.fork }
          let calls := calls ++ [SysCall.fork os.fork]
          if h.m_child_pid = -1 then some (false, h, calls)
          else if h.m_child_pid = 0 then none
          else
            let result := os.waitpid
            let calls := calls ++ [SysCall.waitpid h.m_child_pid true result]
            if result ≠ 0 then some (false, h, calls)
            else some (true, { h with m_initialized := true }, calls)

/-- The mailbox write of `shutdown()`: the store of the request kind `SHUTDOWN` and the
store of `request_ready`. -/
def shutdown_request (buf : SharedMemoryBuffer) : SharedMemoryBuffer :=
  let buf := { buf with request_type := RequestType.SHUTDOWN }
  { buf with request_ready := true }

/-- The method `shutdown()`: the host afterwards and the system calls made;
`waitpid_result` is the value returned by the blocking `waitpid(m_child_pid, &status, 0)`. -/
def shutdown (h : CppInterOpClient) (waitpid_result : Int) :
    Except Abort (CppInterOpClient × List SysCall) :=
  if !h.m_initialized then .ok (h, [])
  else
    match h.m_shared_buffer with
    | Mapping.mapped buf =>
      let h := { h with m_shared_buffer := Mapping.mapped (shutdown_request buf) }
      if h.m_child_pid > 0 then
        .ok ({ h with m_child_pid := -1 },
          [SysCall.kill h.m_child_pid Signal.SIGTERM,
           SysCall.waitpid h.m_child_pid false waitpid_result])
      else .ok (h, [])
    | _ => .error Abort.invalid_pointer

/-- The method `cleanup()`: the host afterwards and the system calls made. -/
def cleanup (h : CppInterOpClient) (waitpid_result : Int) :
    Except Abort (CppInterOpClient × List SysCall) :=
  let calls :=
    if h.m_child_pid > 0 then [SysCall.kill (-h.m_child_pid) Signal.SIGKILL] else []
  match (if h.m_initialized then h.shutdown waitpid_result else .ok (h, [])) with
  | .error e => .error e
  | .ok (h, shutdown_calls) =>
    let calls := calls ++ shutdown_calls
    let unmapped : CppInterOpClient × List SysCall :=
      match h.m_shared_buffer with
      | Mapping.mapped _ => ({ h with m_shared_buffer := Mapping.null }, [SysCall.munmap])
      | _ => (h, [])
    let h := unmapped.1
    let calls := calls ++ unmapped.2
    if h.m_shm_fd ≠ -1 then
      .ok ({ h with m_shm_fd := -1 },
        calls ++ [SysCall.close h.m_shm_fd, SysCall.shm_unlink h.m_shm_name])
    else .ok (h, calls)

/-- The destructor `~CppInterOpClient()`: it calls `cleanup()`. -/
def destruct (h : CppInterOpClient) (waitpid_result : Int) :
    Except Abort (CppInterOpClient × List SysCall) :=
  h.cleanup waitpid_result

end CppInterOpClient

/-- The answers of the operating system and of the interpreter library to the calls of
the worker's `initialize()`. -/
structure WorkerAnswers where
  /-- The value returned by the `shm_open` of attempt `i` (counted from zero). -/
  shm_open : Nat → Int
  /-- The content of the mapped record when `mmap` succeeds; `none` for `MAP_FAILED`. -/
  mmap : Option SharedMemoryBuffer
  /-- The outcome of `Cpp::CreateInterpreter` inside `initializeInterpreter()`: whether the
  returned pointer is non-null, or `none` when a `std::exception` is thrown before the
  assignment. -/
  create_interpreter : Option Bool

namespace CppInterOpProcess

/-- The method `getMaxShmSize()`; `shmmax` is the number read from
`/proc/sys/kernel/shmmax`, `none` when the file cannot be opened. -/
def getMaxShmSize (shmmax : Option Nat) : Nat :=
  match shmmax with
  | some max_size => max_size
  | none => 1024 * 1024

/-- The method `validateShmSize(requested_size)`; `max_size` is the value of
`getMaxShmSize()` and `min_size` the value of `sizeof(SharedMemoryBuffer)`. -/
def validateShmSize (max_size min_size requested_size : Nat) : Nat :=
  if requested_size > max_size then max_size
  else if requested_size < min_size then min_size
  else requested_size

/-- The scan of `sanitizeIncludePaths` for a byte that is zero or a control byte other
than `'\n'` and `'\t'`, from the current position to the end of the path. -/
def has_invalid_chars : List Byte → Bool
  | [] => false
  | c :: rest =>
    if c = 0 ∨ (c > 0 ∧ c < 32 ∧ c ≠ 10 ∧ c ≠ 9) then true else has_invalid_chars rest

/-- The loop of `sanitizeIncludePaths` over the remaining paths, `sanitized` being the
vector built so far; `is_directory` is the answer of
`stat(path, &st) == 0 && S_ISDIR(st.st_mode)`. -/
def sanitizeIncludePaths_loop (is_directory : List Byte → Bool) :
    List (List Byte) → List (List Byte) → List (List Byte)
  | [], sanitized => sanitized
  | path :: rest, sanitized =>
    if path.isEmpty ∨ path.length < 3 then sanitizeIncludePaths_loop is_directory rest sanitized
    else if has_invalid_chars path then sanitizeIncludePaths_loop is_directory rest sanitized
    else if path[0]? ≠ some 47 then sanitizeIncludePaths_loop is_directory rest sanitized
    else if is_directory (as_c_string path) then
      sanitizeIncludePaths_loop is_directory rest (sanitized ++ [path])
    else sanitizeIncludePaths_loop is_directory rest sanitized

/-- The method `sanitizeIncludePaths(paths)`. -/
def sanitizeIncludePaths (is_directory : List Byte → Bool) (paths : List (List Byte)) :
    List (List Byte) :=
  sanitizeIncludePaths_loop is_directory paths []

/-- The constructor `CppInterOpProcess(shm_name, shm_size)`. -/
def construct (shm_name : String) (shm_size max_size min_size : Nat) : CppInterOpProcess :=
  { m_interpreter := false
    m_shared_buffer := Mapping.null
    m_shm_fd := -1
    m_running := true
    m_shm_name := shm_name
    m_shm_size := validateShmSize max_size min_size shm_size }

/-- The method `cleanup()` of the worker: the worker afterwards and the system calls
made. The static flag `initialized`, which is written and never read, is left out. -/
def cleanup (w : CppInterOpProcess) : CppInterOpProcess × List SysCall :=
  let w := if w.m_interpreter then { w with m_interpreter := false } else w
  let unmapped : CppInterOpProcess × List SysCall :=
    match w.m_shared_buffer with
    | Mapping.mapped _ => ({ w with m_shared_buffer := Mapping.null }, [SysCall.munmap])
    | _ => (w, [])
  let w := unmapped.1
  if w.m_shm_fd ≠ -1 then
    ({ w with m_shm_fd := -1 },
      unmapped.2 ++ [SysCall.close w.m_shm_fd, SysCall.shm_unlink w.m_shm_name])
  else (w, unmapped.2)

/-- The destructor `~CppInterOpProcess()`: it calls `cleanup()`. -/
def destruct (w : CppInterOpProcess) : CppInterOpProcess × List SysCall := w.cleanup

/-- The loop of the worker's `initialize()` that opens the segment: `n` attempts are
left, `i` is the number of the next one. The result is the final `m_shm_fd` and the calls
made. -/
def shm_open_loop (name : String) (answer : Nat → Int) : Nat → Nat → Int × List SysCall
  | 0, _ => (-1, [])
  | n + 1, i =>
    let fd := answer i
    if fd ≠ -1 then (fd, [SysCall.shm_open name fd])
    else
      let later := shm_open_loop name answer n (i + 1)
      (later.1, SysCall.shm_open name fd :: later.2)

/-- The method `initializeInterpreter()`, reduced to its effect on `m_interpreter` and its
returned boolean. -/
def initializeInterpreter (w : CppInterOpProcess) (created : Option Bool) :
    Bool × CppInterOpProcess :=
  match created with
  | some true => (true, { w with m_interpreter := true })
  | some false => (false, { w with m_interpreter := false })
  | none => (false, w)

/-- The method `initialize()` of the worker: the returned boolean, the worker afterwards
and the system calls made. -/
def initialize_worker (w : CppInterOpProcess) (os : WorkerAnswers) :
    Bool × CppInterOpProcess × List SysCall :=
  let opened := shm_open_loop w.m_shm_name os.shm_open 50 0
  let w := { w with m_shm_fd := opened.1 }
  let calls := opened.2
  if w.m_shm_fd = -1 then (false, w, calls)
  else
    match os.mmap with
    | none =>
      (false, { w with m_shared_buffer := Mapping.map_failed },
        calls ++ [SysCall.mmap w.m_shm_fd false])
    | some content =>
      let calls := calls ++ [SysCall.mmap w.m_shm_fd true]
      let w := { w with m_shared_buffer := Mapping.mapped content.reset }
      let started := initializeInterpreter w os.create_interpreter
      if !started.1 then
        let cleaned := started.2.cleanup
        (false, cleaned.1, calls ++ cleaned.2)
      else (true, started.2, calls)

/-- The method `run()`: one element of `seen` per iteration of the loop, the content of
the mailbox that iteration finds. The result is the worker when `run()` returns, and `none`
when the loop still runs after the last element of `seen`. -/
def run (I : Interpreter) :
    List SharedMemoryBuffer → CppInterOpProcess → Except Abort (Option CppInterOpProcess)
  | [], w => if w.m_running then .ok none else .ok (some w)
  | buf :: rest, w =>
    if w.m_running then
      match w.m_shared_buffer with
      | Mapping.mapped _ =>
        match run_iteration I { w with m_shared_buffer := Mapping.mapped buf } with
        | .error e => .error e
        | .ok w => run I rest w
      | _ => .error Abort.invalid_pointer
    else .ok (some w)

end CppInterOpProcess

/-- The number of a signal. -/
def Signal.number : Signal → Nat
  | Signal.SIGINT => 2
  | Signal.SIGTERM => 15
  | Signal.SIGKILL => 9

/-- The function `signal_handler(sig)`, `g_process` being the global pointer to the worker
(`none` for `nullptr`): the worker afterwards and the lines written to the log. -/
def signal_handler (g_process : Option CppInterOpProcess) (sig : Signal) :
    Option CppInterOpProcess × List String :=
  match g_process with
  | some w => (some w, ["Received signal " ++ toString sig.number ++ ", shutting down..."])
  | none => (none, [])

/-- The four tests a path has to pass in the loop of `sanitizeIncludePaths`, as one
predicate: its length is at least 3, the scan finds no byte that is zero or lies in 1..31
apart from `'\n'` and `'\t'`, its first byte is `'/'`, and `stat` finds a directory. -/
def passes_tests (is_directory : List Byte → Bool) (path : List Byte) : Bool :=
  decide (3 ≤ path.length) &&
  path.all (fun c => decide (c ≠ 0) && (decide (32 ≤ c) || decide (c = 10) || decide (c = 9))) &&
  decide (path.head? = some 47) &&
  is_directory path

/-- A control byte: one of the ASCII control characters, the bytes 0 to 31 and DEL
(127). -/
def is_control_byte (c : Byte) : Bool := decide (c < 32) || decide (c = 127)

/-- The four checks of the include-path filter in the words of the specification:
(a) length at least 3, (b) no zero byte and no control byte other than `'\n'` and `'\t'`,
(c) first byte `'/'`, (d) the path exists and is a directory. -/
def passes_checks (is_directory : List Byte → Bool) (path : List Byte) : Bool :=
  decide (3 ≤ path.length) &&
  path.all (fun c => decide (c ≠ 0) && (!is_control_byte c || decide (c = 10) || decide (c = 9))) &&
  decide (path.head? = some 47) &&
  is_directory path

/-- A worker after a successful start: attached to the mailbox, its interpreter created,
its loop running. -/
def running_worker : CppInterOpProcess :=
  { m_interpreter := true
    m_shared_buffer := Mapping.mapped zeroed_buffer
    m_shm_fd := 3
    m_running := true
    m_shm_name := "/xcpp_shm_100"
    m_shm_size := 49200 }

/-- The answers to a start of the host in which every call succeeds and the child, with
pid 101, is alive after the startup grace. -/
def good_answers : InitAnswers :=
  { shm_open := 3
    ftruncate := 0
    mmap := some zeroed_buffer
    pipe := 0
    fork := 101
    waitpid := 0 }

/-- The response of a worker whose request succeeded, with empty output and error. -/
def success_response : SharedMemoryBuffer :=
  { zeroed_buffer with
    response_status := ResponseStatus.SUCCESS
    response_ready := true }

/-- The mailbox after the worker has handled the request `evaluate("40 + 2")` written
into the zero-filled mailbox and has published the value 42. -/
def evaluate_response : SharedMemoryBuffer :=
  { CppInterOpClient.evaluate_request zeroed_buffer [52, 48, 32, 43, 32, 50] with
    evaluation_result := 42
    response_status := ResponseStatus.SUCCESS
    request_ready := false
    response_ready := true }

/-- The sample host after it has observed that response. -/
def answered_host : CppInterOpClient :=
  { sample_host with m_shared_buffer := Mapping.mapped evaluate_response }

/-- The answers to a start of the worker in which the segment opens at the first attempt
with descriptor 3, the mapping succeeds and the interpreter library returns a null
interpreter. -/
def no_interpreter_answers : WorkerAnswers :=
  { shm_open := fun _ => 3
    mmap := some zeroed_buffer
    create_interpreter := some false }

/-! ## Arrays: copying a string into a buffer -/

theorem min_mod_uint32 (n c : Nat) (hc : c < UINT32_SIZE) : min n c % UINT32_SIZE = min n c := by
  apply Nat.mod_eq_of_lt
  exact lt_of_le_of_lt (Nat.min_le_right n c) hc

theorem take_c_str (s : List Byte) (n : Nat) (hn : n ≤ s.length) :
    (c_str s).take n = s.take n := by
  unfold c_str
  rw [List.take_append_of_le_length hn]

theorem memcpy_length (buf src : List Byte) (n : Nat) (hs : n ≤ src.length)
    (hb : n ≤ buf.length) : (memcpy buf src n).length = buf.length := by
  unfold memcpy
  simp only [List.length_append, List.length_take, List.length_drop]
  omega

theorem take_set_self (l : List Byte) (n : Nat) (a : Byte) : (l.set n a).take n = l.take n := by
  induction l generalizing n with
  | nil => simp
  | cons x xs ih =>
    cases n with
    | zero => simp
    | succ k => simp [ih]

/-- After the copy of `n` bytes of `s` and the store of the terminator, the first `n` bytes
of the array are the first `n` bytes of `s`. -/
theorem stored_take (buf s : List Byte) (n : Nat) (hn : n ≤ s.length) :
    string_of ((memcpy buf (c_str s) n).set n 0) n = s.take n := by
  unfold string_of memcpy
  rw [take_set_self, take_c_str s n hn]
  exact List.take_left' (by simp [hn])

/-- The copy and the store of the terminator keep the length of the array. -/
theorem stored_length (buf s : List Byte) (n : Nat) (hn : n ≤ s.length) (hb : n ≤ buf.length) :
    ((memcpy buf (c_str s) n).set n 0).length = buf.length := by
  rw [List.length_set]
  exact memcpy_length buf (c_str s) n (by unfold c_str; simp; omega) hb

/-- The byte at index `n` is the terminator. -/
theorem stored_terminator (buf s : List Byte) (n : Nat) (hn : n ≤ s.length)
    (hb : n < buf.length) : ((memcpy buf (c_str s) n).set n 0)[n]? = some 0 := by
  rw [List.getElem?_set_self]
  rw [memcpy_length buf (c_str s) n (by unfold c_str; simp; omega) (le_of_lt hb)]
  exact hb

/-- The bytes above index `n` are untouched. -/
theorem stored_above (buf s : List Byte) (n i : Nat) (hn : n ≤ s.length) (hi : n < i) :
    ((memcpy buf (c_str s) n).set n 0)[i]? = buf[i]? := by
  rw [List.getElem?_set_ne (Nat.ne_of_lt hi)]
  unfold memcpy
  rw [take_c_str s n hn]
  have hl : (s.take n).length = n := by simp [hn]
  rw [List.getElem?_append_right (by omega), List.getElem?_drop, hl]
  congr 1
  omega

theorem zeroed_buffer_wellSized : zeroed_buffer.WellSized := by
  unfold WellSized zeroed_buffer
  simp [List.length_replicate]

/-! ## The typed setters and getters -/

/-- Claim C1. For every mailbox whose arrays have their declared sizes and every byte string
`s`, `set_code(s)` followed by `get_code()` returns the first `min(len(s), 16383)` bytes of
`s` (and `s` itself when `len(s) ≤ MAX_CODE_SIZE - 1`), `code_length` is the length of the
returned string, and `code_buffer[code_length]` is the zero byte; the same holds for
`set_output`/`get_output` (16383 bytes) and for `set_error`/`get_error` (8191 bytes). -/
theorem set_get_truncates (b : SharedMemoryBuffer) (hb : b.WellSized) (s : List Byte) :
    ((b.set_code s).get_code = s.take (min s.length 16383) ∧
      (s.length ≤ MAX_CODE_SIZE - 1 → (b.set_code s).get_code = s) ∧
      (b.set_code s).code_length = (b.set_code s).get_code.length ∧
      (b.set_code s).code_buffer[(b.set_code s).code_length]? = some 0) ∧
    ((b.set_output s).get_output = s.take (min s.length 16383) ∧
      (s.length ≤ MAX_OUTPUT_SIZE - 1 → (b.set_output s).get_output = s) ∧
      (b.set_output s).output_length = (b.set_output s).get_output.length ∧
      (b.set_output s).output_buffer[(b.set_output s).output_length]? = some 0) ∧
    ((b.set_error s).get_error = s.take (min s.length 8191) ∧
      (s.length ≤ MAX_ERROR_SIZE - 1 → (b.set_error s).get_error = s) ∧
      (b.set_error s).error_length = (b.set_error s).get_error.length ∧
      (b.set_error s).error_buffer[(b.set_error s).error_length]? = some 0) := by
  obtain ⟨hc, ho, he, _⟩ := hb
  have h16 : min s.length (16 * 1024 - 1) % UINT32_SIZE = min s.length 16383 :=
    min_mod_uint32 _ _ (by unfold UINT32_SIZE; omega)
  have h8 : min s.length (8 * 1024 - 1) % UINT32_SIZE = min s.length 8191 :=
    min_mod_uint32 _ _ (by unfold UINT32_SIZE; omega)
  have hle16 : min s.length 16383 ≤ s.length := Nat.min_le_left _ _
  have hle8 : min s.length 8191 ≤ s.length := Nat.min_le_left _ _
  refine ⟨?_, ?_, ?_⟩
  · have hg : (b.set_code s).get_code = s.take (min s.length 16383) := by
      simp only [set_code, get_code, MAX_CODE_SIZE, h16]
      exact stored_take _ _ _ hle16
    refine ⟨hg, ?_, ?_, ?_⟩
    · intro hs
      rw [hg]
      exact List.take_of_length_le (by simp only [MAX_CODE_SIZE] at hs; omega)
    · rw [hg]
      simp only [set_code, MAX_CODE_SIZE, h16, List.length_take]
      omega
    · simp only [set_code, MAX_CODE_SIZE, h16]
      exact stored_terminator _ _ _ hle16 (by rw [hc]; simp only [MAX_CODE_SIZE]; omega)
  · have hg : (b.set_output s).get_output = s.take (min s.length 16383) := by
      simp only [set_output, get_output, MAX_OUTPUT_SIZE, h16]
      exact stored_take _ _ _ hle16
    refine ⟨hg, ?_, ?_, ?_⟩
    · intro hs
      rw [hg]
      exact List.take_of_length_le (by simp only [MAX_OUTPUT_SIZE] at hs; omega)
    · rw [hg]
      simp only [set_output, MAX_OUTPUT_SIZE, h16, List.length_take]
      omega
    · simp only [set_output, MAX_OUTPUT_SIZE, h16]
      exact stored_terminator _ _ _ hle16 (by rw [ho]; simp only [MAX_OUTPUT_SIZE]; omega)
  · have hg : (b.set_error s).get_error = s.take (min s.length 8191) := by
      simp only [set_error, get_error, MAX_ERROR_SIZE, h8]
      exact stored_take _ _ _ hle8
    refine ⟨hg, ?_, ?_, ?_⟩
    · intro hs
      rw [hg]
      exact List.take_of_length_le (by simp only [MAX_ERROR_SIZE] at hs; omega)
    · rw [hg]
      simp only [set_error, MAX_ERROR_SIZE, h8, List.length_take]
      omega
    · simp only [set_error, MAX_ERROR_SIZE, h8]
      exact stored_terminator _ _ _ hle8 (by rw [he]; simp only [MAX_ERROR_SIZE]; omega)

/-- Witness of claim C1: on the zero-filled mailbox, the two bytes `"hi"` come back whole
from each of the three slots. -/
theorem set_get_truncates_witness :
    zeroed_buffer.WellSized ∧
    (zeroed_buffer.set_code [104, 105]).get_code = [104, 105] ∧
    (zeroed_buffer.set_output [104, 105]).get_output = [104, 105] ∧
    (zeroed_buffer.set_error [104, 105]).get_error = [104, 105] :=
  ⟨zeroed_buffer_wellSized,
   (set_get_truncates zeroed_buffer zeroed_buffer_wellSized [104, 105]).1.2.1 (by decide),
   (set_get_truncates zeroed_buffer zeroed_buffer_wellSized [104, 105]).2.1.2.1 (by decide),
   (set_get_truncates zeroed_buffer zeroed_buffer_wellSized [104, 105]).2.2.2.1 (by decide)⟩

/-! ## The completion list: joining and splitting -/

theorem newline_joined_cons (x : List Byte) (rest : List (List Byte)) :
    newline_joined (x :: rest) = x ++ tail_joined rest := by
  induction rest generalizing x with
  | nil => simp [newline_joined, tail_joined]
  | cons y ys ih => simp [newline_joined, tail_joined, ih]

/-- Once `combined` is not empty, every further entry is appended after one `'\n'`. -/
theorem combine_foldl_nonempty (xs : List (List Byte)) (acc : List Byte) (hacc : acc ≠ []) :
    xs.foldl
      (fun combined comp =>
        (if !combined.isEmpty then combined ++ [NEWLINE] else combined) ++ comp) acc
      = acc ++ tail_joined xs := by
  induction xs generalizing acc with
  | nil => simp [tail_joined]
  | cons x rest ih =>
    have hne : acc.isEmpty = false := by
      cases acc with
      | nil => exact absurd rfl hacc
      | cons a as => rfl
    simp only [List.foldl_cons, hne, Bool.not_false, if_true]
    rw [ih _ (by simp)]
    simp [tail_joined]

/-- A list that starts with a non-empty entry is joined as the specification says. -/
theorem combine_of_head_nonempty (x : List Byte) (rest : List (List Byte)) (hx : x ≠ []) :
    combine (x :: rest) = newline_joined (x :: rest) := by
  unfold combine
  simp only [List.foldl_cons, List.isEmpty_nil, Bool.not_true, List.nil_append]
  rw [newline_joined_cons]
  exact combine_foldl_nonempty rest x hx

/-- An empty entry at the head of the list leaves no trace in `combined`. -/
theorem combine_nil_cons (rest : List (List Byte)) : combine ([] :: rest) = combine rest := by
  unfold combine
  simp

theorem getline_loop_cons_ne (c : Byte) (t line : List Byte) (hc : c ≠ NEWLINE) :
    getline_loop (c :: t) line = getline_loop t (line ++ [c]) := by
  simp [getline_loop, hc]

/-- Bytes other than the delimiter are moved from the stream into `line`. -/
theorem getline_loop_append (s t line : List Byte) (hs : NEWLINE ∉ s) :
    getline_loop (s ++ t) line = getline_loop t (line ++ s) := by
  induction s generalizing line with
  | nil => simp
  | cons c cs ih =>
    have hc : c ≠ NEWLINE := fun h => hs (by simp [h])
    have hcs : NEWLINE ∉ cs := fun h => hs (by simp [h])
    rw [List.cons_append, getline_loop_cons_ne c _ line hc, ih _ hcs]
    simp

/-- A stream without delimiter gives one line, or none when nothing is extracted. -/
theorem getline_loop_no_newline (s line : List Byte) (hs : NEWLINE ∉ s) :
    getline_loop s line = if (line ++ s).isEmpty then [] else [line ++ s] := by
  have h := getline_loop_append s [] line hs
  simp only [List.append_nil] at h
  rw [h]
  simp [getline_loop]

/-- The delimiter ends the current line. -/
theorem getline_loop_newline (t line : List Byte) :
    getline_loop (NEWLINE :: t) line = line :: getline_loop t [] := by
  simp [getline_loop]

/-- Splitting the joined form of newline-free entries gives the entries back, provided the
last one is not empty. -/
theorem getline_loop_joined (x : List Byte) (rest : List (List Byte)) (line : List Byte)
    (hnl : ∀ y ∈ x :: rest, NEWLINE ∉ y) (hlast : (x :: rest).getLast? ≠ some []) :
    getline_loop (x ++ tail_joined rest) line = (line ++ x) :: rest := by
  induction rest generalizing x line with
  | nil =>
    have hx : x ≠ [] := by
      intro h
      apply hlast
      simp [h]
    simp only [tail_joined, List.append_nil]
    rw [getline_loop_no_newline x line (hnl x (by simp))]
    simp [hx]
  | cons y ys ih =>
    rw [tail_joined, getline_loop_append x _ line (hnl x (by simp)), getline_loop_newline]
    have hy := ih y []
      (fun z hz => hnl z (by simp only [List.mem_cons] at hz ⊢; exact Or.inr hz))
      (by simpa [List.getLast?_cons_cons] using hlast)
    rw [hy]
    simp

/-- What `get_completions` reads after `set_completions`: the lines of `combined` cut to
`MAX_COMPLETION_SIZE - 1` bytes. -/
theorem get_set_completions (b : SharedMemoryBuffer) (xs : List (List Byte)) :
    (b.set_completions xs).get_completions
      = getline_loop ((combine xs).take (min (combine xs).length 8191)) [] := by
  have h8 : min (combine xs).length (8 * 1024 - 1) % UINT32_SIZE = min (combine xs).length 8191 :=
    min_mod_uint32 _ _ (by unfold UINT32_SIZE; omega)
  simp only [set_completions, get_completions, MAX_COMPLETION_SIZE, h8]
  rw [stored_take _ _ _ (Nat.min_le_left _ _)]

/-- Claim C2, amended. For every list `xs` of newline-free strings whose first and last
entries are not empty (the empty list included) and whose newline-joined form is at most
`MAX_COMPLETION_SIZE - 1` (8191) bytes long, `set_completions(xs)` followed by
`get_completions()` returns exactly `xs`, empty entries in the interior included. -/
theorem completions_roundtrip (b : SharedMemoryBuffer) (xs : List (List Byte))
    (hnl : ∀ x ∈ xs, NEWLINE ∉ x) (hfirst : xs.head? ≠ some [])
    (hlast : xs.getLast? ≠ some [])
    (hfit : (newline_joined xs).length ≤ MAX_COMPLETION_SIZE - 1) :
    (b.set_completions xs).get_completions = xs := by
  rw [get_set_completions]
  cases xs with
  | nil => simp [combine, getline_loop]
  | cons x rest =>
    have hx : x ≠ [] := by
      intro h
      apply hfirst
      simp [h]
    rw [combine_of_head_nonempty x rest hx]
    have hlen : min (newline_joined (x :: rest)).length 8191 = (newline_joined (x :: rest)).length := by
      simp only [MAX_COMPLETION_SIZE] at hfit
      omega
    rw [hlen, List.take_length, newline_joined_cons, getline_loop_joined x rest [] hnl hlast]
    simp

/-- Witness of claim C2, amended: the list `["ab", "", "c"]` comes back whole. -/
theorem completions_roundtrip_witness :
    (zeroed_buffer.set_completions [[97, 98], [], [99]]).get_completions
      = [[97, 98], [], [99]] :=
  completions_roundtrip zeroed_buffer [[97, 98], [], [99]] (by decide) (by decide) (by decide)
    (by decide)

/-- Counterexample to claim C2 as stated: the one-element list `[""]` has a joined form of
zero bytes, and `set_completions` followed by `get_completions` returns the empty list.
Likewise `["a", ""]` (empty last element) comes back as `["a"]`, and the one-element list
`["a\nb"]` comes back as the two elements `["a", "b"]`. -/
theorem completions_roundtrip_counterexample :
    ((newline_joined [[]]).length ≤ MAX_COMPLETION_SIZE - 1 ∧
      (zeroed_buffer.set_completions [[]]).get_completions = [] ∧
      (zeroed_buffer.set_completions [[]]).get_completions ≠ [[]]) ∧
    ((newline_joined [[97], []]).length ≤ MAX_COMPLETION_SIZE - 1 ∧
      (zeroed_buffer.set_completions [[97], []]).get_completions = [[97]]) ∧
    ((newline_joined [[97, 10, 98]]).length ≤ MAX_COMPLETION_SIZE - 1 ∧
      (zeroed_buffer.set_completions [[97, 10, 98]]).get_completions = [[97], [98]]) := by
  have h : (zeroed_buffer.set_completions [[]]).get_completions = [] := by
    rw [get_set_completions]
    decide
  refine ⟨⟨by decide, h, ?_⟩, ⟨by decide, ?_⟩, ⟨by decide, ?_⟩⟩
  · rw [h]
    decide
  · rw [get_set_completions]
    decide
  · rw [get_set_completions]
    decide

/-- Claim C4, the code at the failing input `["", "a"]`: the joined form in the words of
the specification is the two bytes `"\na"`, and it fits; `set_completions` sets
`completion_length` to 1 and the first byte of `completion_buffer` to `'a'`: the
separator between the two entries is missing. -/
theorem set_completions_leading_empty :
    (newline_joined [[], [97]]).length ≤ MAX_COMPLETION_SIZE - 1 ∧
    newline_joined [[], [97]] = [10, 97] ∧
    (zeroed_buffer.set_completions [[], [97]]).completion_length = 1 ∧
    (zeroed_buffer.set_completions [[], [97]]).completion_buffer.take 1 = [97] := by
  refine ⟨by decide, by decide, by decide, ?_⟩
  have h8 : min (combine [[], [97]]).length (8 * 1024 - 1) % UINT32_SIZE = 1 := by decide
  simp only [set_completions, MAX_COMPLETION_SIZE, h8]
  have := stored_take zeroed_buffer.completion_buffer (combine [[], [97]]) 1 (by decide)
  simp only [string_of] at this
  rw [this]
  decide

/-! ## `reset()` and the size invariant -/

/-- Every byte below `n` is `c` after `memset(buf, c, n)`. -/
theorem memset_get (buf : List Byte) (c : Byte) (n i : Nat) (hi : i < n) :
    (memset buf c n)[i]? = some c := by
  unfold memset
  rw [List.getElem?_append_left (by rw [List.length_replicate]; exact hi)]
  exact List.getElem?_replicate_of_lt hi

/-- Claim C5. For every mailbox state, after `reset()` the four lengths are zero, the first
byte of each of the four buffers is zero, `request_ready` and `response_ready` are false,
`request_type` and `response_status` are `NONE`, and `cursor_pos`, `compilation_result`
and `evaluation_result` are `0`, `false` and `0`. -/
theorem reset_clears (b : SharedMemoryBuffer) :
    (b.reset.code_length = 0 ∧ b.reset.output_length = 0 ∧ b.reset.error_length = 0 ∧
      b.reset.completion_length = 0) ∧
    (b.reset.code_buffer[0]? = some 0 ∧ b.reset.output_buffer[0]? = some 0 ∧
      b.reset.error_buffer[0]? = some 0 ∧ b.reset.completion_buffer[0]? = some 0) ∧
    (b.reset.request_ready = false ∧ b.reset.response_ready = false) ∧
    (b.reset.request_type = RequestType.NONE ∧ b.reset.response_status = ResponseStatus.NONE) ∧
    (b.reset.cursor_pos = 0 ∧ b.reset.compilation_result = false ∧
      b.reset.evaluation_result = 0) :=
  ⟨⟨rfl, rfl, rfl, rfl⟩,
   ⟨memset_get _ 0 MAX_CODE_SIZE 0 (by decide), memset_get _ 0 MAX_OUTPUT_SIZE 0 (by decide),
    memset_get _ 0 MAX_ERROR_SIZE 0 (by decide), memset_get _ 0 MAX_COMPLETION_SIZE 0 (by decide)⟩,
   ⟨rfl, rfl⟩, ⟨rfl, rfl⟩, ⟨rfl, rfl, rfl⟩⟩

/-- The last byte of an array stays zero when a string cut to the capacity minus one is
copied in and terminated. -/
theorem stored_last (buf s : List Byte) (cap n : Nat) (hlast : buf[cap - 1]? = some 0)
    (hn : n ≤ s.length) (hcap : n ≤ cap - 1) :
    ((memcpy buf (c_str s) n).set n 0)[cap - 1]? = some 0 := by
  have hlt : cap - 1 < buf.length := by
    obtain ⟨h, _⟩ := List.getElem?_eq_some.mp hlast
    exact h
  rcases Nat.lt_or_ge n (cap - 1) with hlt' | hge
  · rw [stored_above buf s n (cap - 1) hn hlt']
    exact hlast
  · have heq : n = cap - 1 := Nat.le_antisymm hcap hge
    rw [← heq] at hlt ⊢
    exact stored_terminator buf s n hn hlt

theorem bounded_reset (b : SharedMemoryBuffer) : b.reset.Bounded :=
  ⟨⟨Nat.zero_le _, Nat.zero_le _, Nat.zero_le _, Nat.zero_le _⟩,
   ⟨memset_get _ 0 MAX_CODE_SIZE _ (by decide), memset_get _ 0 MAX_OUTPUT_SIZE _ (by decide),
    memset_get _ 0 MAX_ERROR_SIZE _ (by decide),
    memset_get _ 0 MAX_COMPLETION_SIZE _ (by decide)⟩⟩

theorem min_mod_le (n c : Nat) (hc : c < UINT32_SIZE) : min n c % UINT32_SIZE ≤ c := by
  rw [min_mod_uint32 n c hc]
  exact Nat.min_le_right n c

theorem min_mod_le_left (n c : Nat) (hc : c < UINT32_SIZE) : min n c % UINT32_SIZE ≤ n := by
  rw [min_mod_uint32 n c hc]
  exact Nat.min_le_left n c

theorem bounded_set_code (b : SharedMemoryBuffer) (s : List Byte) (hb : b.Bounded) :
    (b.set_code s).Bounded := by
  obtain ⟨⟨_, h2, h3, h4⟩, ⟨g1, g2, g3, g4⟩⟩ := hb
  have hc : MAX_CODE_SIZE - 1 < UINT32_SIZE := by decide
  exact ⟨⟨min_mod_le _ _ hc, h2, h3, h4⟩,
    ⟨stored_last _ s MAX_CODE_SIZE _ g1 (min_mod_le_left _ _ hc) (min_mod_le _ _ hc), g2, g3, g4⟩⟩

theorem bounded_set_output (b : SharedMemoryBuffer) (s : List Byte) (hb : b.Bounded) :
    (b.set_output s).Bounded := by
  obtain ⟨⟨h1, _, h3, h4⟩, ⟨g1, g2, g3, g4⟩⟩ := hb
  have hc : MAX_OUTPUT_SIZE - 1 < UINT32_SIZE := by decide
  exact ⟨⟨h1, min_mod_le _ _ hc, h3, h4⟩,
    ⟨g1, stored_last _ s MAX_OUTPUT_SIZE _ g2 (min_mod_le_left _ _ hc) (min_mod_le _ _ hc),
      g3, g4⟩⟩

theorem bounded_set_error (b : SharedMemoryBuffer) (s : List Byte) (hb : b.Bounded) :
    (b.set_error s).Bounded := by
  obtain ⟨⟨h1, h2, _, h4⟩, ⟨g1, g2, g3, g4⟩⟩ := hb
  have hc : MAX_ERROR_SIZE - 1 < UINT32_SIZE := by decide
  exact ⟨⟨h1, h2, min_mod_le _ _ hc, h4⟩,
    ⟨g1, g2, stored_last _ s MAX_ERROR_SIZE _ g3 (min_mod_le_left _ _ hc) (min_mod_le _ _ hc),
      g4⟩⟩

theorem bounded_set_completions (b : SharedMemoryBuffer) (xs : List (List Byte))
    (hb : b.Bounded) : (b.set_completions xs).Bounded := by
  obtain ⟨⟨h1, h2, h3, _⟩, ⟨g1, g2, g3, g4⟩⟩ := hb
  have hc : MAX_COMPLETION_SIZE - 1 < UINT32_SIZE := by decide
  exact ⟨⟨h1, h2, h3, min_mod_le _ _ hc⟩,
    ⟨g1, g2, g3,
      stored_last _ (combine xs) MAX_COMPLETION_SIZE _ g4 (min_mod_le_left _ _ hc)
        (min_mod_le _ _ hc)⟩⟩

/-- Claim C6. In every mailbox state reachable from a `reset()` state by any finite sequence
of `reset`, `set_code`, `set_output`, `set_error` and `set_completions` calls with
arbitrary arguments, each length field is at most the capacity of its buffer minus one and
the last byte (index capacity minus one) of each of the four buffers is zero. -/
theorem reachable_bounded (b : SharedMemoryBuffer) (hb : Reachable b) :
    (b.code_length ≤ MAX_CODE_SIZE - 1 ∧ b.output_length ≤ MAX_OUTPUT_SIZE - 1 ∧
      b.error_length ≤ MAX_ERROR_SIZE - 1 ∧ b.completion_length ≤ MAX_COMPLETION_SIZE - 1) ∧
    (b.code_buffer[MAX_CODE_SIZE - 1]? = some 0 ∧
      b.output_buffer[MAX_OUTPUT_SIZE - 1]? = some 0 ∧
      b.error_buffer[MAX_ERROR_SIZE - 1]? = some 0 ∧
      b.completion_buffer[MAX_COMPLETION_SIZE - 1]? = some 0) := by
  have h : b.Bounded := by
    induction hb with
    | start b0 => exact bounded_reset b0
    | reset _ _ => exact bounded_reset _
    | set_code s _ ih => exact bounded_set_code _ s ih
    | set_output s _ ih => exact bounded_set_output _ s ih
    | set_error s _ ih => exact bounded_set_error _ s ih
    | set_completions xs _ ih => exact bounded_set_completions _ xs ih
  exact h

/-- Witness of claim C6: the state after `reset()`, `set_code("hi")`, `set_error("e")` and
`set_completions(["a", "b"])` is reachable, and its lengths and last bytes are as stated. -/
theorem reachable_bounded_witness :
    Reachable (((zeroed_buffer.reset.set_code [104, 105]).set_error [101]).set_completions
      [[97], [98]]) ∧
    (((zeroed_buffer.reset.set_code [104, 105]).set_error [101]).set_completions
      [[97], [98]]).completion_buffer[MAX_COMPLETION_SIZE - 1]? = some 0 :=
  have hr : Reachable (((zeroed_buffer.reset.set_code [104, 105]).set_error [101]).set_completions
      [[97], [98]]) :=
    Reachable.set_completions _ (Reachable.set_error _ (Reachable.set_code _
      (Reachable.start zeroed_buffer)))
  ⟨hr, (reachable_bounded _ hr).2.2.2.2⟩

/-! ## The host operations -/

theorem waitForResponse_of_loop (h : CppInterOpClient) (buf resp : SharedMemoryBuffer)
    (polls : List Poll) (timeout_ms e : Int) (r : Bool)
    (hmap : h.m_shared_buffer = Mapping.mapped buf)
    (hwait : CppInterOpClient.waitForResponse_loop timeout_ms h.elapsed_ms polls
      = .ok (r, resp, e)) :
    h.waitForResponse polls timeout_ms
      = .ok (r, { h with m_shared_buffer := Mapping.mapped resp, elapsed_ms := e }) := by
  unfold CppInterOpClient.waitForResponse
  rw [hmap]
  simp only [hwait]

/-- A response that is ready at the first observation ends the wait with success. -/
theorem waitForResponse_loop_ready (resp : SharedMemoryBuffer) (timeout_ms e now wp : Int)
    (hready : resp.response_ready = true) :
    CppInterOpClient.waitForResponse_loop timeout_ms e [⟨resp, now, wp⟩]
      = .ok (true, resp, e) := by
  simp [CppInterOpClient.waitForResponse_loop, hready]

theorem get_set_error (b : SharedMemoryBuffer) (s : List Byte) (hs : s.length ≤ 8191) :
    (b.set_error s).get_error = s := by
  have h8 : min s.length (8 * 1024 - 1) % UINT32_SIZE = min s.length 8191 :=
    min_mod_uint32 _ _ (by unfold UINT32_SIZE; omega)
  simp only [set_error, get_error, MAX_ERROR_SIZE, h8]
  rw [stored_take _ _ _ (Nat.min_le_left _ _)]
  exact List.take_of_length_le (by omega)

/-- What `processCode` returns once the wait has succeeded. -/
theorem processCode_of_wait (h : CppInterOpClient) (buf resp : SharedMemoryBuffer)
    (code output error : List Byte) (polls : List Poll) (e : Int)
    (hinit : h.m_initialized = true) (hmap : h.m_shared_buffer = Mapping.mapped buf)
    (hwait : CppInterOpClient.waitForResponse_loop CppInterOpClient.DEFAULT_TIMEOUT_MS h.elapsed_ms polls
      = .ok (true, resp, e)) :
    h.processCode code output error polls
      = .ok (decide (resp.response_status = ResponseStatus.SUCCESS), resp.get_output,
          resp.get_error, { h with m_shared_buffer := Mapping.mapped resp, elapsed_ms := e }) := by
  obtain ⟨sb, fd, name, pid, init, el⟩ := h
  simp only at hinit hmap hwait
  subst hinit hmap
  simp only [CppInterOpClient.processCode, Bool.not_true, Bool.false_eq_true, if_false]
  rw [waitForResponse_of_loop _ (CppInterOpClient.processCode_request buf code) resp polls
    CppInterOpClient.DEFAULT_TIMEOUT_MS e true rfl hwait]

/-- Claim C7, amended. For an initialized host whose wait for the response succeeds,
`processCode` returns true exactly when the response status is `SUCCESS`; a response with
status `COMPILATION_ERROR` makes `processCode` return false, and in both cases the output
and error text of the worker are delivered in the out-parameters. -/
theorem processCode_true_iff_success (h : CppInterOpClient) (buf resp : SharedMemoryBuffer)
    (code output error : List Byte) (polls : List Poll) (e : Int)
    (hinit : h.m_initialized = true) (hmap : h.m_shared_buffer = Mapping.mapped buf)
    (hwait : CppInterOpClient.waitForResponse_loop CppInterOpClient.DEFAULT_TIMEOUT_MS h.elapsed_ms polls
      = .ok (true, resp, e)) :
    ∃ (r : Bool) (h' : CppInterOpClient),
      h.processCode code output error polls = .ok (r, resp.get_output, resp.get_error, h') ∧
      (r = true ↔ resp.response_status = ResponseStatus.SUCCESS) ∧
      (resp.response_status = ResponseStatus.COMPILATION_ERROR → r = false) := by
  refine ⟨decide (resp.response_status = ResponseStatus.SUCCESS), _,
    processCode_of_wait h buf resp code output error polls e hinit hmap hwait, ?_, ?_⟩
  · simp
  · intro hs
    simp [hs]

/-- Witness of claim C7, amended: the sample host, observing the compile-error response at
its first poll, returns false and delivers the diagnostic `"err"`. -/
theorem processCode_true_iff_success_witness :
    ∃ (r : Bool) (h' : CppInterOpClient),
      sample_host.processCode [105, 110, 116, 32, 61, 32, 59] [] []
          [⟨compile_error_response, 12, 0⟩]
        = .ok (r, compile_error_response.get_output, compile_error_response.get_error, h') ∧
      (r = true ↔ compile_error_response.response_status = ResponseStatus.SUCCESS) ∧
      (compile_error_response.response_status = ResponseStatus.COMPILATION_ERROR → r = false) :=
  processCode_true_iff_success sample_host zeroed_buffer compile_error_response
    [105, 110, 116, 32, 61, 32, 59] [] [] [⟨compile_error_response, 12, 0⟩] 0 rfl rfl
    (waitForResponse_loop_ready compile_error_response CppInterOpClient.DEFAULT_TIMEOUT_MS 0 12 0 rfl)

/-- Counterexample to claim C7 as stated: the sample host is initialized, its wait succeeds
at the first poll, the response status is `COMPILATION_ERROR`, the error text `"err"` is
delivered, and `processCode("int = ;")` returns false. -/
theorem processCode_compilation_error_counterexample :
    sample_host.m_initialized = true ∧
    CppInterOpClient.waitForResponse_loop CppInterOpClient.DEFAULT_TIMEOUT_MS sample_host.elapsed_ms
        [⟨compile_error_response, 12, 0⟩] = .ok (true, compile_error_response, 0) ∧
    compile_error_response.response_status = ResponseStatus.COMPILATION_ERROR ∧
    compile_error_response.get_error = [101, 114, 114] ∧
    ∃ h' : CppInterOpClient,
      sample_host.processCode [105, 110, 116, 32, 61, 32, 59] [] []
          [⟨compile_error_response, 12, 0⟩]
        = .ok (false, compile_error_response.get_output, [101, 114, 114], h') := by
  have hw := waitForResponse_loop_ready compile_error_response CppInterOpClient.DEFAULT_TIMEOUT_MS 0 12 0 rfl
  have he : compile_error_response.get_error = [101, 114, 114] :=
    get_set_error zeroed_buffer [101, 114, 114] (by decide)
  refine ⟨rfl, hw, rfl, he,
    { sample_host with
      m_shared_buffer := Mapping.mapped compile_error_response, elapsed_ms := 0 }, ?_⟩
  rw [processCode_of_wait sample_host zeroed_buffer compile_error_response _ [] []
    [⟨compile_error_response, 12, 0⟩] 0 rfl rfl hw, he]
  rfl

/-- Claim C8. For every host state with `m_initialized == false` and every input,
`processCode`, `codeComplete` and `evaluate` return false, the host state (the mailbox
included) is unchanged, and the out-parameters `output`, `error`, `results` and `result`
keep their values. -/
theorem uninitialized_refuses (h : CppInterOpClient) (hinit : h.m_initialized = false)
    (code output error : List Byte) (cursor_pos result : Int) (results : List (List Byte))
    (polls : List Poll) :
    h.processCode code output error polls = .ok (false, output, error, h) ∧
    h.codeComplete code cursor_pos results polls = .ok (false, results, h) ∧
    h.evaluate code result polls = .ok (false, result, h) := by
  refine ⟨?_, ?_, ?_⟩
  · simp [CppInterOpClient.processCode, hinit]
  · simp [CppInterOpClient.codeComplete, hinit]
  · simp [CppInterOpClient.evaluate, hinit]

/-- Witness of claim C8: the freshly constructed host refuses the three requests. -/
theorem uninitialized_refuses_witness :
    (CppInterOpClient.construct 100).m_initialized = false ∧
    (CppInterOpClient.construct 100).processCode [49] [111] [101] []
      = .ok (false, [111], [101], CppInterOpClient.construct 100) ∧
    (CppInterOpClient.construct 100).codeComplete [49] 1 [[114]] []
      = .ok (false, [[114]], CppInterOpClient.construct 100) ∧
    (CppInterOpClient.construct 100).evaluate [49] 7 []
      = .ok (false, 7, CppInterOpClient.construct 100) :=
  ⟨rfl, uninitialized_refuses (CppInterOpClient.construct 100) rfl [49] [111] [101] 1 7 [[114]] []⟩

/-! ## The request write and its decoding -/

theorem get_set_code (b : SharedMemoryBuffer) (s : List Byte) (hs : s.length ≤ 16383) :
    (b.set_code s).get_code = s := by
  have h16 : min s.length (16 * 1024 - 1) % UINT32_SIZE = min s.length 16383 :=
    min_mod_uint32 _ _ (by unfold UINT32_SIZE; omega)
  simp only [set_code, get_code, MAX_CODE_SIZE, h16]
  rw [stored_take _ _ _ (Nat.min_le_left _ _)]
  exact List.take_of_length_le (by omega)

/-- The first `n` bytes after `memset(buf, c, n)` are `n` copies of `c`. -/
theorem memset_take (buf : List Byte) (c : Byte) (n : Nat) :
    (memset buf c n).take n = List.replicate n c := by
  unfold memset
  exact List.take_left' (List.length_replicate n c)

theorem responseZeroed_reset (b : SharedMemoryBuffer) : b.reset.ResponseZeroed :=
  ⟨rfl, ⟨rfl, rfl, rfl⟩, ⟨rfl, rfl⟩,
   ⟨memset_take _ 0 MAX_OUTPUT_SIZE, memset_take _ 0 MAX_ERROR_SIZE,
    memset_take _ 0 MAX_COMPLETION_SIZE⟩⟩

/-- Claim C9. For each request kind `PROCESS_CODE`, `CODE_COMPLETE` and `EVALUATE`, every
code string of at most 16383 bytes and every cursor, the mailbox state the host publishes
(`reset`, `set_code`, `cursor_pos` where applicable, `request_type`,
`request_ready = true`) is read by the worker as `get_code()` equal to the code of the
host, `cursor_pos` equal to the cursor of the host (for `CODE_COMPLETE`), `request_type`
equal to the kind, with `response_ready` false and all response fields zeroed. -/
theorem request_decodes (buf : SharedMemoryBuffer) (code : List Byte) (cursor_pos : Int)
    (hcode : code.length ≤ 16383) :
    ((CppInterOpClient.processCode_request buf code).get_code = code ∧
      (CppInterOpClient.processCode_request buf code).request_type = RequestType.PROCESS_CODE ∧
      (CppInterOpClient.processCode_request buf code).request_ready = true ∧
      (CppInterOpClient.processCode_request buf code).response_ready = false ∧
      (CppInterOpClient.processCode_request buf code).ResponseZeroed) ∧
    ((CppInterOpClient.codeComplete_request buf code cursor_pos).get_code = code ∧
      (CppInterOpClient.codeComplete_request buf code cursor_pos).cursor_pos = cursor_pos ∧
      (CppInterOpClient.codeComplete_request buf code cursor_pos).request_type
        = RequestType.CODE_COMPLETE ∧
      (CppInterOpClient.codeComplete_request buf code cursor_pos).request_ready = true ∧
      (CppInterOpClient.codeComplete_request buf code cursor_pos).response_ready = false ∧
      (CppInterOpClient.codeComplete_request buf code cursor_pos).ResponseZeroed) ∧
    ((CppInterOpClient.evaluate_request buf code).get_code = code ∧
      (CppInterOpClient.evaluate_request buf code).request_type = RequestType.EVALUATE ∧
      (CppInterOpClient.evaluate_request buf code).request_ready = true ∧
      (CppInterOpClient.evaluate_request buf code).response_ready = false ∧
      (CppInterOpClient.evaluate_request buf code).ResponseZeroed) :=
  ⟨⟨get_set_code buf.reset code hcode, rfl, rfl, rfl, responseZeroed_reset buf⟩,
   ⟨get_set_code buf.reset code hcode, rfl, rfl, rfl, rfl, responseZeroed_reset buf⟩,
   ⟨get_set_code buf.reset code hcode, rfl, rfl, rfl, responseZeroed_reset buf⟩⟩

/-- Witness of claim C9: the code `"std::vec"` and the cursor 8 written into the zero-filled
mailbox by `codeComplete` are read back unchanged. -/
theorem request_decodes_witness :
    (CppInterOpClient.codeComplete_request zeroed_buffer
      [115, 116, 100, 58, 58, 118, 101, 99] 8).get_code = [115, 116, 100, 58, 58, 118, 101, 99] ∧
    (CppInterOpClient.codeComplete_request zeroed_buffer
      [115, 116, 100, 58, 58, 118, 101, 99] 8).cursor_pos = 8 :=
  ⟨(request_decodes zeroed_buffer [115, 116, 100, 58, 58, 118, 101, 99] 8 (by decide)).2.1.1,
   (request_decodes zeroed_buffer [115, 116, 100, 58, 58, 118, 101, 99] 8 (by decide)).2.1.2.1⟩

/-! ## One evaluate cycle -/

/-- What `evaluate` returns once the wait has succeeded. -/
theorem evaluate_of_wait (h : CppInterOpClient) (buf resp : SharedMemoryBuffer)
    (code : List Byte) (result : Int) (polls : List Poll) (e : Int)
    (hinit : h.m_initialized = true) (hmap : h.m_shared_buffer = Mapping.mapped buf)
    (hwait : CppInterOpClient.waitForResponse_loop CppInterOpClient.DEFAULT_TIMEOUT_MS
      h.elapsed_ms polls = .ok (true, resp, e)) :
    h.evaluate code result polls
      = if resp.response_status = ResponseStatus.SUCCESS then
          .ok (true, resp.evaluation_result,
            { h with m_shared_buffer := Mapping.mapped resp, elapsed_ms := e })
        else
          .ok (false, result,
            { h with m_shared_buffer := Mapping.mapped resp, elapsed_ms := e }) := by
  obtain ⟨sb, fd, name, pid, init, el⟩ := h
  simp only at hinit hmap hwait
  subst hinit hmap
  simp only [CppInterOpClient.evaluate, Bool.not_true, Bool.false_eq_true, if_false]
  rw [waitForResponse_of_loop _ (CppInterOpClient.evaluate_request buf code) resp polls
    CppInterOpClient.DEFAULT_TIMEOUT_MS e true rfl hwait]

/-- The worker's loop iteration on an `EVALUATE` request with a non-null interpreter:
the handler runs and the response is published. -/
theorem run_iteration_evaluate (I : Interpreter) (w : CppInterOpProcess)
    (req : SharedMemoryBuffer) (hi : w.m_interpreter = true)
    (hmap : w.m_shared_buffer = Mapping.mapped req) (hready : req.request_ready = true)
    (htype : req.request_type = RequestType.EVALUATE) :
    CppInterOpProcess.run_iteration I w
      = .ok { w with
          m_shared_buffer := Mapping.mapped
            { CppInterOpProcess.processEvaluation I true req with
              request_ready := false, response_ready := true } } := by
  obtain ⟨mi, sb, fd, run, name, size⟩ := w
  simp only at hi hmap
  subst hi hmap
  simp [CppInterOpProcess.run_iteration, CppInterOpProcess.processRequest, hready, htype]

/-- The first `cleanup()` of an initialized host with a mapped mailbox and a child
succeeds and leaves `m_initialized` set with a null mailbox pointer. -/
theorem cleanup_initialized (h : CppInterOpClient) (buf : SharedMemoryBuffer) (w : Int)
    (hinit : h.m_initialized = true) (hmap : h.m_shared_buffer = Mapping.mapped buf)
    (hpid : h.m_child_pid > 0) (hfd : h.m_shm_fd ≠ -1) :
    h.cleanup w
      = .ok ({ h with
                m_shared_buffer := Mapping.null, m_shm_fd := -1, m_child_pid := -1 },
             [SysCall.kill (-h.m_child_pid) Signal.SIGKILL,
              SysCall.kill h.m_child_pid Signal.SIGTERM,
              SysCall.waitpid h.m_child_pid false w,
              SysCall.munmap, SysCall.close h.m_shm_fd, SysCall.shm_unlink h.m_shm_name]) := by
  obtain ⟨sb, fd, name, pid, init, el⟩ := h
  simp only at hinit hmap hpid hfd
  subst hinit hmap
  simp [CppInterOpClient.cleanup, CppInterOpClient.shutdown, hpid, hfd]

/-- With `m_initialized` set and the mailbox pointer null, `shutdown()` dereferences the
null pointer, and so does `cleanup()`, which calls it. -/
theorem teardown_null_mailbox (h : CppInterOpClient) (w : Int)
    (hinit : h.m_initialized = true) (hmap : h.m_shared_buffer = Mapping.null) :
    h.shutdown w = .error Abort.invalid_pointer ∧
    h.cleanup w = .error Abort.invalid_pointer := by
  obtain ⟨sb, fd, name, pid, init, el⟩ := h
  simp only at hinit hmap
  subst hinit hmap
  simp [CppInterOpClient.cleanup, CppInterOpClient.shutdown]

/-- Claim C11, the code at the failing input. A host is constructed and started with every
call succeeding (child pid 101); the first `cleanup()` returns with `m_initialized` still
set and the mailbox pointer null; a second `cleanup()` (as the destructor makes) and a
`shutdown()` after it then dereference the null mailbox pointer. When instead the child is
found exited at the startup check, `initialize()` fails with `m_child_pid == 101`, the
first `cleanup()` leaves `m_child_pid` as it is, and the second `cleanup()` sends
`SIGKILL` to the process group 101 again. -/
theorem cleanup_twice_faults :
    (∃ (h1 h2 : CppInterOpClient) (calls1 calls2 : List SysCall),
      (CppInterOpClient.construct 100).initialize_host good_answers = some (true, h1, calls1) ∧
      h1.cleanup 101 = .ok (h2, calls2) ∧
      h2.m_initialized = true ∧ h2.m_shared_buffer = Mapping.null ∧
      h2.cleanup 101 = .error Abort.invalid_pointer ∧
      h2.destruct 101 = .error Abort.invalid_pointer ∧
      h2.shutdown 101 = .error Abort.invalid_pointer) ∧
    (∃ (h1 h2 : CppInterOpClient) (calls1 calls2 : List SysCall),
      (CppInterOpClient.construct 100).initialize_host { good_answers with waitpid := 101 }
        = some (false, h1, calls1) ∧
      h1.cleanup 101 = .ok (h2, calls2) ∧
      h2.cleanup 101 = .ok (h2, [SysCall.kill (-101) Signal.SIGKILL])) := by
  constructor
  · refine ⟨_, _, _, _, rfl, rfl, rfl, rfl, ?_, ?_, ?_⟩
    · exact (teardown_null_mailbox _ 101 rfl rfl).2
    · exact (teardown_null_mailbox _ 101 rfl rfl).2
    · exact (teardown_null_mailbox _ 101 rfl rfl).1
  · exact ⟨_, _, _, _, rfl, rfl, rfl⟩

/-! ## A wait that fails -/

/-- What the three request operations return once the wait has failed: false, with the
out-parameters as they were. -/
theorem request_of_failed_wait (h : CppInterOpClient) (buf resp : SharedMemoryBuffer)
    (code output error : List Byte) (cursor_pos result : Int) (results : List (List Byte))
    (polls : List Poll) (e : Int)
    (hinit : h.m_initialized = true) (hmap : h.m_shared_buffer = Mapping.mapped buf)
    (hwait : CppInterOpClient.waitForResponse_loop CppInterOpClient.DEFAULT_TIMEOUT_MS
      h.elapsed_ms polls = .ok (false, resp, e)) :
    h.processCode code output error polls
      = .ok (false, output, error,
          { h with m_shared_buffer := Mapping.mapped resp, elapsed_ms := e }) ∧
    h.codeComplete code cursor_pos results polls
      = .ok (false, results, { h with m_shared_buffer := Mapping.mapped resp, elapsed_ms := e }) ∧
    h.evaluate code result polls
      = .ok (false, result, { h with m_shared_buffer := Mapping.mapped resp, elapsed_ms := e }) := by
  obtain ⟨sb, fd, name, pid, init, el⟩ := h
  simp only at hinit hmap hwait
  subst hinit hmap
  refine ⟨?_, ?_, ?_⟩
  · simp only [CppInterOpClient.processCode, Bool.not_true, Bool.false_eq_true, if_false]
    rw [waitForResponse_of_loop _ (CppInterOpClient.processCode_request buf code) resp polls
      CppInterOpClient.DEFAULT_TIMEOUT_MS e false rfl hwait]
  · simp only [CppInterOpClient.codeComplete, Bool.not_true, Bool.false_eq_true, if_false]
    rw [waitForResponse_of_loop _ (CppInterOpClient.codeComplete_request buf code cursor_pos)
      resp polls CppInterOpClient.DEFAULT_TIMEOUT_MS e false rfl hwait]
  · simp only [CppInterOpClient.evaluate, Bool.not_true, Bool.false_eq_true, if_false]
    rw [waitForResponse_of_loop _ (CppInterOpClient.evaluate_request buf code) resp polls
      CppInterOpClient.DEFAULT_TIMEOUT_MS e false rfl hwait]

/-- An observation made after the deadline, with the response not ready, ends the wait
with failure. -/
theorem waitForResponse_loop_deadline (buf : SharedMemoryBuffer) (timeout_ms e now wp : Int)
    (ps : List Poll) (hready : buf.response_ready = false) (hnow : now > timeout_ms) :
    CppInterOpClient.waitForResponse_loop timeout_ms e (⟨buf, now, wp⟩ :: ps)
      = .ok (false, buf, e) := by
  simp [CppInterOpClient.waitForResponse_loop, hready, hnow]

/-- A wait that returns leaves the mailbox pointer on a mapping. -/
theorem waitForResponse_ok_mapped (h h2 : CppInterOpClient) (polls : List Poll)
    (timeout_ms : Int) (r : Bool) (hw : h.waitForResponse polls timeout_ms = .ok (r, h2)) :
    ∃ b : SharedMemoryBuffer, h2.m_shared_buffer = Mapping.mapped b := by
  unfold CppInterOpClient.waitForResponse at hw
  cases hm : h.m_shared_buffer with
  | null => simp [hm] at hw
  | map_failed => simp [hm] at hw
  | mapped buf =>
    simp only [hm] at hw
    cases hl : CppInterOpClient.waitForResponse_loop timeout_ms h.elapsed_ms polls with
    | error a => simp [hl] at hw
    | ok res =>
      obtain ⟨r', b', e'⟩ := res
      simp only [hl, Except.ok.injEq, Prod.mk.injEq] at hw
      obtain ⟨_, rfl⟩ := hw
      exact ⟨b', rfl⟩

/-- How `processCode` ends on an initialized host, by the outcome of the wait that runs on
the request it has written. -/
theorem processCode_by_wait (h h2 : CppInterOpClient) (buf b : SharedMemoryBuffer)
    (code output error : List Byte) (polls : List Poll) (r : Bool)
    (hinit : h.m_initialized = true) (hmap : h.m_shared_buffer = Mapping.mapped buf)
    (hw : ({ h with m_shared_buffer :=
              Mapping.mapped (CppInterOpClient.processCode_request buf code) }).waitForResponse
            polls CppInterOpClient.DEFAULT_TIMEOUT_MS = .ok (r, h2))
    (hb : h2.m_shared_buffer = Mapping.mapped b) :
    h.processCode code output error polls
      = if r = true then
          .ok (decide (b.response_status = ResponseStatus.SUCCESS), b.get_output,
            b.get_error, h2)
        else .ok (false, output, error, h2) := by
  obtain ⟨sb, fd, name, pid, init, el⟩ := h
  simp only at hinit hmap hw
  subst hinit hmap
  simp only [CppInterOpClient.processCode, Bool.not_true, Bool.false_eq_true, if_false, hw]
  cases r <;> simp [hb]

/-- How `codeComplete` ends on an initialized host, by the outcome of the wait that runs on
the request it has written. -/
theorem codeComplete_by_wait (h h2 : CppInterOpClient) (buf b : SharedMemoryBuffer)
    (code : List Byte) (cursor_pos : Int) (results : List (List Byte)) (polls : List Poll)
    (r : Bool)
    (hinit : h.m_initialized = true) (hmap : h.m_shared_buffer = Mapping.mapped buf)
    (hw : ({ h with
              m_shared_buffer :=
                Mapping.mapped (CppInterOpClient.codeComplete_request buf code cursor_pos)
            }).waitForResponse polls CppInterOpClient.DEFAULT_TIMEOUT_MS = .ok (r, h2))
    (hb : h2.m_shared_buffer = Mapping.mapped b) :
    h.codeComplete code cursor_pos results polls
      = if r = true then
          .ok (decide (b.response_status = ResponseStatus.SUCCESS), b.get_completions, h2)
        else .ok (false, results, h2) := by
  obtain ⟨sb, fd, name, pid, init, el⟩ := h
  simp only at hinit hmap hw
  subst hinit hmap
  simp only [CppInterOpClient.codeComplete, Bool.not_true, Bool.false_eq_true, if_false, hw]
  cases r <;> simp [hb]

/-- How `evaluate` ends on an initialized host, by the outcome of the wait that runs on
the request it has written. -/
theorem evaluate_by_wait (h h2 : CppInterOpClient) (buf b : SharedMemoryBuffer)
    (code : List Byte) (result : Int) (polls : List Poll) (r : Bool)
    (hinit : h.m_initialized = true) (hmap : h.m_shared_buffer = Mapping.mapped buf)
    (hw : ({ h with m_shared_buffer :=
              Mapping.mapped (CppInterOpClient.evaluate_request buf code) }).waitForResponse
            polls CppInterOpClient.DEFAULT_TIMEOUT_MS = .ok (r, h2))
    (hb : h2.m_shared_buffer = Mapping.mapped b) :
    h.evaluate code result polls
      = if r = true ∧ b.response_status = ResponseStatus.SUCCESS then
          .ok (true, b.evaluation_result, h2)
        else .ok (false, result, h2) := by
  obtain ⟨sb, fd, name, pid, init, el⟩ := h
  simp only at hinit hmap hw
  subst hinit hmap
  simp only [CppInterOpClient.evaluate, Bool.not_true, Bool.false_eq_true, if_false, hw]
  cases r <;> simp [hb]

/-- Claim C12, amended. When a request operation (`processCode`, `codeComplete` or
`evaluate`) fails because `waitForResponse` returned false, the host returns false with its
out-parameters unchanged and tears nothing down: `m_initialized` stays set, the mailbox
stays mapped, `m_shm_fd` and `m_child_pid` keep their values. A further `processCode`,
`codeComplete` or `evaluate` call is not refused. It resets the mailbox and writes the new
request: the mailbox it waits on has the request kind stored, `request_ready` true,
`response_ready` false and all response fields zeroed. It returns by the outcome of that
wait: false with the out-parameters unchanged when the wait fails again, and otherwise
what it reads from the response (`processCode` and `codeComplete` return
`status == SUCCESS` and deliver output and error, or the completions; `evaluate` returns
true with the evaluation result when the status is `SUCCESS` and false otherwise). -/
theorem failed_wait_keeps_worker (h : CppInterOpClient) (buf resp : SharedMemoryBuffer)
    (code output error : List Byte) (cursor_pos result : Int) (results : List (List Byte))
    (polls : List Poll) (e : Int)
    (hinit : h.m_initialized = true) (hmap : h.m_shared_buffer = Mapping.mapped buf)
    (hwait : CppInterOpClient.waitForResponse_loop CppInterOpClient.DEFAULT_TIMEOUT_MS
      h.elapsed_ms polls = .ok (false, resp, e)) :
    ∃ h' : CppInterOpClient,
      (h.processCode code output error polls = .ok (false, output, error, h') ∧
        h.codeComplete code cursor_pos results polls = .ok (false, results, h') ∧
        h.evaluate code result polls = .ok (false, result, h')) ∧
      (h'.m_initialized = true ∧ h'.m_shared_buffer = Mapping.mapped resp ∧
        h'.m_shm_fd = h.m_shm_fd ∧ h'.m_child_pid = h.m_child_pid) ∧
      ∀ (code2 output2 error2 : List Byte) (cursor_pos2 result2 : Int)
        (results2 : List (List Byte)) (polls2 : List Poll),
        (((CppInterOpClient.processCode_request resp code2).request_type
              = RequestType.PROCESS_CODE ∧
            (CppInterOpClient.processCode_request resp code2).request_ready = true ∧
            (CppInterOpClient.processCode_request resp code2).response_ready = false ∧
            (CppInterOpClient.processCode_request resp code2).ResponseZeroed) ∧
          ∀ (r : Bool) (h2 : CppInterOpClient),
            ({ h' with m_shared_buffer :=
                Mapping.mapped (CppInterOpClient.processCode_request resp code2) }).waitForResponse
              polls2 CppInterOpClient.DEFAULT_TIMEOUT_MS = .ok (r, h2) →
            ∃ b : SharedMemoryBuffer, h2.m_shared_buffer = Mapping.mapped b ∧
              h'.processCode code2 output2 error2 polls2
                = if r = true then
                    .ok (decide (b.response_status = ResponseStatus.SUCCESS), b.get_output,
                      b.get_error, h2)
                  else .ok (false, output2, error2, h2)) ∧
        (((CppInterOpClient.codeComplete_request resp code2 cursor_pos2).request_type
              = RequestType.CODE_COMPLETE ∧
            (CppInterOpClient.codeComplete_request resp code2 cursor_pos2).request_ready = true ∧
            (CppInterOpClient.codeComplete_request resp code2 cursor_pos2).response_ready
              = false ∧
            (CppInterOpClient.codeComplete_request resp code2 cursor_pos2).ResponseZeroed) ∧
          ∀ (r : Bool) (h2 : CppInterOpClient),
            ({ h' with
                m_shared_buffer :=
                  Mapping.mapped (CppInterOpClient.codeComplete_request resp code2 cursor_pos2)
              }).waitForResponse polls2 CppInterOpClient.DEFAULT_TIMEOUT_MS = .ok (r, h2) →
            ∃ b : SharedMemoryBuffer, h2.m_shared_buffer = Mapping.mapped b ∧
              h'.codeComplete code2 cursor_pos2 results2 polls2
                = if r = true then
                    .ok (decide (b.response_status = ResponseStatus.SUCCESS),
                      b.get_completions, h2)
                  else .ok (false, results2, h2)) ∧
        (((CppInterOpClient.evaluate_request resp code2).request_type = RequestType.EVALUATE ∧
            (CppInterOpClient.evaluate_request resp code2).request_ready = true ∧
            (CppInterOpClient.evaluate_request resp code2).response_ready = false ∧
            (CppInterOpClient.evaluate_request resp code2).ResponseZeroed) ∧
          ∀ (r : Bool) (h2 : CppInterOpClient),
            ({ h' with m_shared_buffer :=
                Mapping.mapped (CppInterOpClient.evaluate_request resp code2) }).waitForResponse
              polls2 CppInterOpClient.DEFAULT_TIMEOUT_MS = .ok (r, h2) →
            ∃ b : SharedMemoryBuffer, h2.m_shared_buffer = Mapping.mapped b ∧
              h'.evaluate code2 result2 polls2
                = if r = true ∧ b.response_status = ResponseStatus.SUCCESS then
                    .ok (true, b.evaluation_result, h2)
                  else .ok (false, result2, h2)) := by
  refine ⟨{ h with m_shared_buffer := Mapping.mapped resp, elapsed_ms := e },
    request_of_failed_wait h buf resp code output error cursor_pos result results polls e
      hinit hmap hwait,
    ⟨hinit, rfl, rfl, rfl⟩, ?_⟩
  intro code2 output2 error2 cursor_pos2 result2 results2 polls2
  refine ⟨⟨⟨rfl, rfl, rfl, responseZeroed_reset resp⟩, ?_⟩,
    ⟨⟨rfl, rfl, rfl, responseZeroed_reset resp⟩, ?_⟩,
    ⟨⟨rfl, rfl, rfl, responseZeroed_reset resp⟩, ?_⟩⟩
  · intro r h2 hw
    obtain ⟨b, hb⟩ := waitForResponse_ok_mapped _ h2 polls2 _ r hw
    exact ⟨b, hb, processCode_by_wait _ h2 resp b code2 output2 error2 polls2 r hinit rfl hw hb⟩
  · intro r h2 hw
    obtain ⟨b, hb⟩ := waitForResponse_ok_mapped _ h2 polls2 _ r hw
    exact ⟨b, hb,
      codeComplete_by_wait _ h2 resp b code2 cursor_pos2 results2 polls2 r hinit rfl hw hb⟩
  · intro r h2 hw
    obtain ⟨b, hb⟩ := waitForResponse_ok_mapped _ h2 polls2 _ r hw
    exact ⟨b, hb, evaluate_by_wait _ h2 resp b code2 result2 polls2 r hinit rfl hw hb⟩

/-- Witness of claim C12, amended: the sample host, whose only observation is made after
the deadline, returns false from `evaluate` and stays initialized; its next `evaluate`,
whose wait finds a `SUCCESS` response carrying the value 0, returns true with that
value. -/
theorem failed_wait_keeps_worker_witness :
    ∃ h' h2 : CppInterOpClient,
      sample_host.evaluate [49] 7
          [⟨CppInterOpClient.evaluate_request zeroed_buffer [49], 100001, 0⟩]
        = .ok (false, 7, h') ∧
      h'.m_initialized = true ∧
      h'.evaluate [49] 7 [⟨success_response, 5, 0⟩] = .ok (true, 0, h2) := by
  obtain ⟨h', hops, hkept, hnext⟩ :=
    failed_wait_keeps_worker sample_host zeroed_buffer
      (CppInterOpClient.evaluate_request zeroed_buffer [49]) [49] [] [] 0 7 []
      [⟨CppInterOpClient.evaluate_request zeroed_buffer [49], 100001, 0⟩] 0 rfl rfl
      (waitForResponse_loop_deadline _ CppInterOpClient.DEFAULT_TIMEOUT_MS 0 100001 0 [] rfl
        (by decide))
  have hw := waitForResponse_of_loop
    { h' with
      m_shared_buffer :=
        Mapping.mapped (CppInterOpClient.evaluate_request
          (CppInterOpClient.evaluate_request zeroed_buffer [49]) [49]) }
    _ success_response [⟨success_response, 5, 0⟩] CppInterOpClient.DEFAULT_TIMEOUT_MS
    h'.elapsed_ms true rfl
    (waitForResponse_loop_ready success_response CppInterOpClient.DEFAULT_TIMEOUT_MS
      h'.elapsed_ms 5 0 rfl)
  obtain ⟨b, hb, hev⟩ := (hnext [49] [] [] 0 7 [] [⟨success_response, 5, 0⟩]).2.2.2 true _ hw
  have hbeq : b = success_response := by
    simp only [Mapping.mapped.injEq] at hb
    exact hb.symm
  subst hbeq
  rw [if_pos ⟨rfl, rfl⟩] at hev
  exact ⟨h', _, hops.2.2, hkept.1, hev⟩

/-- Counterexample to claim C12 as stated: on the sample host the wait of
`processCode("1")` meets its deadline (the clock reads 100001 ms, the response is not
ready) and `processCode` returns false; afterwards `m_initialized` is still set, the
mailbox is still mapped, the descriptor and the child pid are unchanged, and the next
`processCode("1")`, whose wait finds a `SUCCESS` response, returns true. -/
theorem failed_wait_counterexample :
    CppInterOpClient.waitForResponse_loop CppInterOpClient.DEFAULT_TIMEOUT_MS
        sample_host.elapsed_ms
        [⟨CppInterOpClient.processCode_request zeroed_buffer [49], 100001, 0⟩]
      = .ok (false, CppInterOpClient.processCode_request zeroed_buffer [49], 0) ∧
    ∃ h' h'' : CppInterOpClient,
      sample_host.processCode [49] [] []
          [⟨CppInterOpClient.processCode_request zeroed_buffer [49], 100001, 0⟩]
        = .ok (false, [], [], h') ∧
      h'.m_initialized = true ∧
      h'.m_shared_buffer
        = Mapping.mapped (CppInterOpClient.processCode_request zeroed_buffer [49]) ∧
      h'.m_shm_fd = 3 ∧ h'.m_child_pid = 101 ∧
      h'.processCode [49] [] [] [⟨success_response, 5, 0⟩]
        = .ok (true, success_response.get_output, success_response.get_error, h'') := by
  have hw := waitForResponse_loop_deadline
    (CppInterOpClient.processCode_request zeroed_buffer [49])
    CppInterOpClient.DEFAULT_TIMEOUT_MS 0 100001 0 [] rfl (by decide)
  refine ⟨hw, _,
    { sample_host with m_shared_buffer := Mapping.mapped success_response, elapsed_ms := 0 },
    (request_of_failed_wait sample_host zeroed_buffer _ [49] [] [] 0 0 [] _ 0 rfl rfl hw).1,
    rfl, rfl, rfl, rfl, ?_⟩
  exact processCode_of_wait _ (CppInterOpClient.processCode_request zeroed_buffer [49])
    success_response [49] [] [] [⟨success_response, 5, 0⟩] 0 rfl rfl
    (waitForResponse_loop_ready success_response CppInterOpClient.DEFAULT_TIMEOUT_MS 0 5 0 rfl)

/-! ## Start followed by teardown -/

/-- What `shutdown()` does on an initialized host with a mapped mailbox and a child. -/
theorem shutdown_initialized (h : CppInterOpClient) (buf : SharedMemoryBuffer) (w : Int)
    (hinit : h.m_initialized = true) (hmap : h.m_shared_buffer = Mapping.mapped buf)
    (hpid : h.m_child_pid > 0) :
    h.shutdown w
      = .ok ({ h with
                m_shared_buffer := Mapping.mapped (CppInterOpClient.shutdown_request buf),
                m_child_pid := -1 },
             [SysCall.kill h.m_child_pid Signal.SIGTERM,
              SysCall.waitpid h.m_child_pid false w]) := by
  obtain ⟨sb, fd, name, pid, init, el⟩ := h
  simp only at hinit hmap hpid
  subst hinit hmap
  simp [CppInterOpClient.shutdown, hpid]

/-- The handler of `EVALUATE` when the evaluator returns a value. -/
theorem processEvaluation_ok (I : Interpreter) (buf : SharedMemoryBuffer) (v : Int)
    (hv : I.Evaluate (as_c_string buf.get_code) = .ok v) :
    CppInterOpProcess.processEvaluation I true buf
      = { buf with evaluation_result := v, response_status := ResponseStatus.SUCCESS } := by
  simp [CppInterOpProcess.processEvaluation, hv]

/-- Claim C14, the code at the failing input. The sample host completes one `evaluate`
request: it writes the request, the worker handles it and publishes the response
(`request_ready` false, `response_ready` true), the host observes the response and
returns 42. `shutdown()` issued next writes `SHUTDOWN` and sets `request_ready` without a
`reset()`: at the end of that step `request_ready` and `response_ready` are both true. -/
theorem shutdown_after_request_both_ready :
    CppInterOpProcess.run_iteration sample_interpreter
        (sample_worker (CppInterOpClient.evaluate_request zeroed_buffer [52, 48, 32, 43, 32, 50]))
      = .ok (sample_worker evaluate_response) ∧
    (evaluate_response.request_ready = false ∧ evaluate_response.response_ready = true) ∧
    sample_host.evaluate [52, 48, 32, 43, 32, 50] 0 [⟨evaluate_response, 10, 0⟩]
      = .ok (true, 42, answered_host) ∧
    answered_host.shutdown 101
      = .ok ({ answered_host with
                m_shared_buffer :=
                  Mapping.mapped (CppInterOpClient.shutdown_request evaluate_response),
                m_child_pid := -1 },
             [SysCall.kill 101 Signal.SIGTERM, SysCall.waitpid 101 false 101]) ∧
    (CppInterOpClient.shutdown_request evaluate_response).request_type = RequestType.SHUTDOWN ∧
    (CppInterOpClient.shutdown_request evaluate_response).request_ready = true ∧
    (CppInterOpClient.shutdown_request evaluate_response).response_ready = true := by
  have hcode : (CppInterOpClient.evaluate_request zeroed_buffer
      [52, 48, 32, 43, 32, 50]).get_code = [52, 48, 32, 43, 32, 50] :=
    get_set_code zeroed_buffer.reset _ (by decide)
  have hproc := processEvaluation_ok sample_interpreter
    (CppInterOpClient.evaluate_request zeroed_buffer [52, 48, 32, 43, 32, 50]) 42
    (by rw [hcode]; rfl)
  have hrun := run_iteration_evaluate sample_interpreter
    (sample_worker (CppInterOpClient.evaluate_request zeroed_buffer [52, 48, 32, 43, 32, 50]))
    _ rfl rfl rfl rfl
  rw [hproc] at hrun
  refine ⟨hrun, ⟨rfl, rfl⟩, ?_, ?_, rfl, rfl, rfl⟩
  · rw [evaluate_of_wait sample_host zeroed_buffer evaluate_response [52, 48, 32, 43, 32, 50] 0
      [⟨evaluate_response, 10, 0⟩] 0 rfl rfl
      (waitForResponse_loop_ready evaluate_response CppInterOpClient.DEFAULT_TIMEOUT_MS 0 10 0
        rfl)]
    rfl
  · exact shutdown_initialized answered_host evaluate_response 101 rfl rfl (by decide)

/-! ## The handler of `PROCESS_CODE` -/

theorem get_set_output_take (b : SharedMemoryBuffer) (s : List Byte) :
    (b.set_output s).get_output = s.take (min s.length 16383) ∧
    (b.set_output s).output_length = min s.length 16383 := by
  have h16 : min s.length (16 * 1024 - 1) % UINT32_SIZE = min s.length 16383 :=
    min_mod_uint32 _ _ (by unfold UINT32_SIZE; omega)
  simp only [set_output, get_output, MAX_OUTPUT_SIZE, h16]
  exact ⟨stored_take _ _ _ (Nat.min_le_left _ _), trivial⟩

theorem get_set_error_take (b : SharedMemoryBuffer) (s : List Byte) :
    (b.set_error s).get_error = s.take (min s.length 8191) ∧
    (b.set_error s).error_length = min s.length 8191 := by
  have h8 : min s.length (8 * 1024 - 1) % UINT32_SIZE = min s.length 8191 :=
    min_mod_uint32 _ _ (by unfold UINT32_SIZE; omega)
  simp only [set_error, get_error, MAX_ERROR_SIZE, h8]
  exact ⟨stored_take _ _ _ (Nat.min_le_left _ _), trivial⟩

/-- Claim C15. With the process entry point of the interpreter returning the boolean `b`
together with the captured stdout `out` and stderr `err` (and not throwing), the
`PROCESS_CODE` handler of a worker with a non-null interpreter sets `compilation_result`
to `b`, `response_status` to `SUCCESS` if `b` is true and to `COMPILATION_ERROR`
otherwise, the output buffer to `out` and the error buffer to `err`, each cut to the
capacity of its buffer minus one (16383 and 8191 bytes). -/
theorem processCode_handler (I : Interpreter) (buf : SharedMemoryBuffer) (b : Bool)
    (out err : List Byte) (hproc : I.Process (as_c_string buf.get_code) = .ok (b, out, err)) :
    (CppInterOpProcess.processCode I true buf).compilation_result = b ∧
    (CppInterOpProcess.processCode I true buf).response_status
      = (if b then ResponseStatus.SUCCESS else ResponseStatus.COMPILATION_ERROR) ∧
    ((CppInterOpProcess.processCode I true buf).get_output = out.take (min out.length 16383) ∧
      (CppInterOpProcess.processCode I true buf).output_length = min out.length 16383) ∧
    ((CppInterOpProcess.processCode I true buf).get_error = err.take (min err.length 8191) ∧
      (CppInterOpProcess.processCode I true buf).error_length = min err.length 8191) := by
  have hout := get_set_output_take { buf with compilation_result := b } out
  have herr := get_set_error_take ({ buf with compilation_result := b }.set_output out) err
  cases b with
  | false =>
    have hval : CppInterOpProcess.processCode I true buf
        = { ({ buf with compilation_result := false }.set_output out).set_error err with
            response_status := ResponseStatus.COMPILATION_ERROR } := by
      simp [CppInterOpProcess.processCode, hproc]
    rw [hval]
    exact ⟨rfl, rfl, hout, herr⟩
  | true =>
    have hval : CppInterOpProcess.processCode I true buf
        = { ({ buf with compilation_result := true }.set_output out).set_error err with
            response_status := ResponseStatus.SUCCESS } := by
      simp [CppInterOpProcess.processCode, hproc]
    rw [hval]
    exact ⟨rfl, rfl, hout, herr⟩

/-- Witness of claim C15: with an entry point that returns true and captures nothing, the
handler on the zero-filled mailbox sets the status `SUCCESS`. -/
theorem processCode_handler_witness :
    (CppInterOpProcess.processCode sample_interpreter true zeroed_buffer).response_status
      = ResponseStatus.SUCCESS :=
  (processCode_handler sample_interpreter zeroed_buffer true [] [] rfl).2.1

/-! ## The child found exited during a wait -/

/-- One cycle of the wait in which the response is not ready, the clock is within the
timeout and `waitpid` returns a value other than zero. -/
theorem waitForResponse_loop_exited (timeout_ms e : Int) (p : Poll) (ps : List Poll)
    (hready : p.buffer.response_ready = false) (hnow : p.now_ms ≤ timeout_ms)
    (hexited : p.waitpid_result ≠ 0) :
    CppInterOpClient.waitForResponse_loop timeout_ms e (p :: ps)
      = if e + 1 > 100000 then .ok (false, p.buffer, e + 1)
        else CppInterOpClient.waitForResponse_loop timeout_ms (e + 1 + 1) ps := by
  have hnow' : ¬ p.now_ms > timeout_ms := not_lt.mpr hnow
  simp [CppInterOpClient.waitForResponse_loop, hready, hnow', hexited]

/-- The wait is still running after `n` consecutive such cycles as long as the counter
stays within its bound. -/
theorem waitForResponse_loop_exited_run (timeout_ms : Int) (p : Poll) (ps : List Poll)
    (hready : p.buffer.response_ready = false) (hnow : p.now_ms ≤ timeout_ms)
    (hexited : p.waitpid_result ≠ 0) (n : Nat) (e : Int) (hbound : e + 2 * n ≤ 100001) :
    CppInterOpClient.waitForResponse_loop timeout_ms e (List.replicate n p ++ ps)
      = CppInterOpClient.waitForResponse_loop timeout_ms (e + 2 * n) ps := by
  induction n generalizing e with
  | zero => simp
  | succ k ih =>
    rw [List.replicate_succ, List.cons_append,
      waitForResponse_loop_exited timeout_ms e p _ hready hnow hexited,
      if_neg (by push_cast at hbound; omega), ih (e + 1 + 1) (by push_cast at hbound ⊢; omega)]
    congr 1
    push_cast
    ring

/-- Claim C16, amended. During `waitForResponse`, when `waitpid` reports in a polling
cycle that the child has exited (a result other than zero) while `response_ready` is false
and the clock is within the timeout, the wait adds one to the static counter `elapsed_ms`
and returns false in that cycle only if the counter then exceeds 100000; otherwise it
sleeps, adds one again and goes on to the next cycle. From a counter of zero the wait
returns false in the 50001st consecutive such cycle. -/
theorem exited_child_is_counted (timeout_ms e : Int) (p : Poll) (ps : List Poll)
    (hready : p.buffer.response_ready = false) (hnow : p.now_ms ≤ timeout_ms)
    (hexited : p.waitpid_result ≠ 0) :
    (e + 1 ≤ 100000 →
      CppInterOpClient.waitForResponse_loop timeout_ms e (p :: ps)
        = CppInterOpClient.waitForResponse_loop timeout_ms (e + 2) ps) ∧
    (e + 1 > 100000 →
      CppInterOpClient.waitForResponse_loop timeout_ms e (p :: ps)
        = .ok (false, p.buffer, e + 1)) ∧
    CppInterOpClient.waitForResponse_loop timeout_ms 0 (List.replicate 50000 p ++ p :: ps)
      = .ok (false, p.buffer, 100001) := by
  have hstep := waitForResponse_loop_exited timeout_ms e p ps hready hnow hexited
  refine ⟨?_, ?_, ?_⟩
  · intro hle
    rw [hstep, if_neg (by omega)]
    congr 1
    omega
  · intro hgt
    rw [hstep, if_pos hgt]
  · rw [waitForResponse_loop_exited_run timeout_ms p (p :: ps) hready hnow hexited 50000 0
        (by norm_num),
      waitForResponse_loop_exited timeout_ms _ p ps hready hnow hexited, if_pos (by norm_num)]
    norm_num

/-- Witness of claim C16, amended: with the request still unanswered at 5 ms and `waitpid`
returning the pid 101, the cycle hands the wait over to the next one with the counter
raised from 0 to 2. -/
theorem exited_child_is_counted_witness :
    CppInterOpClient.waitForResponse_loop CppInterOpClient.DEFAULT_TIMEOUT_MS 0
        [⟨CppInterOpClient.processCode_request zeroed_buffer [49], 5, 101⟩,
         ⟨success_response, 16, 101⟩]
      = CppInterOpClient.waitForResponse_loop CppInterOpClient.DEFAULT_TIMEOUT_MS (0 + 2)
          [⟨success_response, 16, 101⟩] :=
  (exited_child_is_counted CppInterOpClient.DEFAULT_TIMEOUT_MS 0
    ⟨CppInterOpClient.processCode_request zeroed_buffer [49], 5, 101⟩
    [⟨success_response, 16, 101⟩] rfl (by decide) (by decide)).1 (by decide)

/-- Counterexample to claim C16 as stated: in the first cycle the response is not ready
and `waitpid` returns the pid 101 of the exited child; the wait does not return in that
cycle (the loop is still running when the single observation is used up), and with a
second observation that finds the response ready it returns true. -/
theorem exited_child_counterexample :
    (CppInterOpClient.processCode_request zeroed_buffer [49]).response_ready = false ∧
    CppInterOpClient.waitForResponse_loop CppInterOpClient.DEFAULT_TIMEOUT_MS 0
        [⟨CppInterOpClient.processCode_request zeroed_buffer [49], 5, 101⟩]
      = .error Abort.still_waiting ∧
    CppInterOpClient.waitForResponse_loop CppInterOpClient.DEFAULT_TIMEOUT_MS 0
        [⟨CppInterOpClient.processCode_request zeroed_buffer [49], 5, 101⟩,
         ⟨success_response, 16, 101⟩]
      = .ok (true, success_response, 2) := by
  refine ⟨rfl, ?_, ?_⟩
  · rw [waitForResponse_loop_exited _ _ _ _ rfl (by decide) (by decide), if_neg (by decide)]
    rfl
  · rw [waitForResponse_loop_exited _ _ _ _ rfl (by decide) (by decide), if_neg (by decide)]
    exact waitForResponse_loop_ready success_response _ _ 16 101 rfl

/-! ## Signals in the polling loop -/

/-- The handler leaves the worker as it is. -/
theorem signal_handler_keeps (g_process : Option CppInterOpProcess) (sig : Signal) :
    (signal_handler g_process sig).1 = g_process := by
  cases g_process <;> rfl

/-- While `m_running` is set and no request is pending, the loop of `run()` goes on. -/
theorem run_idle (I : Interpreter) (seen : List SharedMemoryBuffer) (w : CppInterOpProcess)
    (buf : SharedMemoryBuffer) (hrun : w.m_running = true)
    (hmap : w.m_shared_buffer = Mapping.mapped buf)
    (hidle : ∀ b ∈ seen, b.request_ready = false) :
    CppInterOpProcess.run I seen w = .ok none := by
  induction seen generalizing w buf with
  | nil => simp [CppInterOpProcess.run, hrun]
  | cons b rest ih =>
    have hb : b.request_ready = false := hidle b (by simp)
    obtain ⟨mi, sb, fd, running, name, size⟩ := w
    simp only at hrun hmap
    subst hrun hmap
    have hstep : CppInterOpProcess.run_iteration I ⟨mi, Mapping.mapped b, fd, true, name, size⟩
        = .ok ⟨mi, Mapping.mapped b, fd, true, name, size⟩ := by
      simp [CppInterOpProcess.run_iteration, hb]
    simp only [CppInterOpProcess.run, if_true, hstep]
    exact ih ⟨mi, Mapping.mapped b, fd, true, name, size⟩ b rfl rfl
      (fun c hc => hidle c (by simp [hc]))

/-- Claim C17, the code at the failing input. A worker is in its polling loop with
`m_running` set and `g_process` pointing at it; the handler runs for `SIGTERM` or for
`SIGINT`. The handler writes a log line and changes nothing: the worker is as before,
`m_running` is still true, and with no request pending the loop of `run()` is still
running three iterations later. -/
theorem signal_sets_no_flag :
    (∀ (g_process : Option CppInterOpProcess) (sig : Signal),
      (signal_handler g_process sig).1 = g_process) ∧
    (signal_handler (some running_worker) Signal.SIGTERM).1 = some running_worker ∧
    (signal_handler (some running_worker) Signal.SIGINT).1 = some running_worker ∧
    running_worker.m_running = true ∧
    CppInterOpProcess.run sample_interpreter [zeroed_buffer, zeroed_buffer, zeroed_buffer]
        running_worker = .ok none :=
  ⟨signal_handler_keeps, rfl, rfl, rfl,
   run_idle sample_interpreter _ running_worker zeroed_buffer rfl rfl (by
     intro b hb
     simp only [List.mem_cons, List.mem_singleton, List.not_mem_nil, or_false, or_self] at hb
     rw [hb]
     rfl)⟩

/-! ## The include-path filter -/

/-- The scan finds nothing exactly when every byte is non-zero and is `'\n'`, `'\t'` or
at least 32. -/
theorem has_invalid_chars_eq (path : List Byte) :
    CppInterOpProcess.has_invalid_chars path
      = !path.all (fun c =>
          decide (c ≠ 0) && (decide (32 ≤ c) || decide (c = 10) || decide (c = 9))) := by
  induction path with
  | nil => rfl
  | cons c rest ih =>
    simp only [CppInterOpProcess.has_invalid_chars, List.all_cons, ih]
    by_cases h0 : c = 0
    · simp [h0]
    · by_cases h32 : 32 ≤ c
      · have : ¬ c < 32 := Nat.not_lt.mpr h32
        simp [h0, h32, this]
      · have hlt : c < 32 := Nat.lt_of_not_le h32
        have hpos : c > 0 := Nat.pos_of_ne_zero h0
        by_cases h10 : c = 10
        · simp [h10]
        · by_cases h9 : c = 9
          · simp [h9]
          · simp [h0, h32, hlt, hpos, h10, h9]

/-- A path in which the scan finds nothing holds no zero byte, so `c_str()` shows all of
it. -/
theorem as_c_string_of_valid (path : List Byte)
    (hvalid : CppInterOpProcess.has_invalid_chars path = false) : as_c_string path = path := by
  induction path with
  | nil => rfl
  | cons c rest ih =>
    simp only [CppInterOpProcess.has_invalid_chars] at hvalid
    split at hvalid
    · exact absurd hvalid (by simp)
    · rename_i hc
      have h0 : c ≠ 0 := fun h => hc (Or.inl h)
      have hrest := ih hvalid
      unfold as_c_string at hrest ⊢
      rw [List.takeWhile_cons_of_pos (by simpa using h0), hrest]

/-- The loop appends to `sanitized` the remaining paths that pass its four tests. -/
theorem sanitizeIncludePaths_loop_eq (is_directory : List Byte → Bool)
    (paths sanitized : List (List Byte)) :
    CppInterOpProcess.sanitizeIncludePaths_loop is_directory paths sanitized
      = sanitized ++ paths.filter (passes_tests is_directory) := by
  induction paths generalizing sanitized with
  | nil => simp [CppInterOpProcess.sanitizeIncludePaths_loop]
  | cons path rest ih =>
    simp only [CppInterOpProcess.sanitizeIncludePaths_loop]
    by_cases hlen : path.isEmpty ∨ path.length < 3
    · have hfail : passes_tests is_directory path = false := by
        have : ¬ 3 ≤ path.length := by
          rcases hlen with h | h
          · have : path = [] := by simpa using h
            simp [this]
          · omega
        simp [passes_tests, this]
      rw [if_pos hlen, ih, List.filter_cons_of_neg (by simp [hfail])]
    · rw [if_neg hlen]
      have h3 : 3 ≤ path.length := by
        by_contra hcon
        exact hlen (Or.inr (by omega))
      by_cases hinv : CppInterOpProcess.has_invalid_chars path = true
      · have hfail : passes_tests is_directory path = false := by
          rw [has_invalid_chars_eq] at hinv
          have hall : path.all (fun c =>
              decide (c ≠ 0) && (decide (32 ≤ c) || decide (c = 10) || decide (c = 9)))
              = false := by simpa using hinv
          simp only [passes_tests, hall, Bool.and_false, Bool.false_and]
        rw [if_pos hinv, ih, List.filter_cons_of_neg (by simp [hfail])]
      · rw [if_neg hinv]
        have hvalid : CppInterOpProcess.has_invalid_chars path = false := by
          simpa using hinv
        have hall : path.all (fun c =>
            decide (c ≠ 0) && (decide (32 ≤ c) || decide (c = 10) || decide (c = 9)))
            = true := by
          rw [has_invalid_chars_eq] at hvalid
          simpa using hvalid
        have hhead : path[0]? = path.head? := by
          cases path <;> simp
        rw [as_c_string_of_valid path hvalid, hhead]
        by_cases hslash : path.head? = some 47
        · rw [if_neg (by simp [hslash])]
          by_cases hdir : is_directory path = true
          · have hpass : passes_tests is_directory path = true := by
              unfold passes_tests
              rw [hall, hdir]
              simp [h3, hslash]
            rw [if_pos hdir, ih, List.filter_cons_of_pos hpass]
            simp
          · have hfail : passes_tests is_directory path = false := by
              have : is_directory path = false := by simpa using hdir
              simp [passes_tests, this]
            rw [if_neg hdir, ih, List.filter_cons_of_neg (by simp [hfail])]
        · have hfail : passes_tests is_directory path = false := by
            simp [passes_tests, hslash]
          rw [if_pos hslash, ih, List.filter_cons_of_neg (by simp [hfail])]

/-- The method `sanitizeIncludePaths` keeps, in their order and with duplicates, exactly the
paths that pass its four tests. -/
theorem sanitizeIncludePaths_eq_filter (is_directory : List Byte → Bool)
    (paths : List (List Byte)) :
    CppInterOpProcess.sanitizeIncludePaths is_directory paths
      = paths.filter (passes_tests is_directory) := by
  unfold CppInterOpProcess.sanitizeIncludePaths
  rw [sanitizeIncludePaths_loop_eq]
  simp

/-- On a path without the byte DEL the tests of the code and the checks of the
specification agree. -/
theorem passes_checks_eq_tests (is_directory : List Byte → Bool) (path : List Byte)
    (hdel : 127 ∉ path) : passes_checks is_directory path = passes_tests is_directory path := by
  have hall : path.all (fun c =>
        decide (c ≠ 0) && (!is_control_byte c || decide (c = 10) || decide (c = 9)))
      = path.all (fun c =>
        decide (c ≠ 0) && (decide (32 ≤ c) || decide (c = 10) || decide (c = 9))) := by
    induction path with
    | nil => rfl
    | cons c rest ih =>
      have hc : c ≠ 127 := fun h => hdel (by simp [h])
      have hrest : 127 ∉ rest := fun h => hdel (by simp [h])
      have hctl : (!is_control_byte c) = decide (32 ≤ c) := by
        by_cases h32 : 32 ≤ c
        · have : ¬ c < 32 := Nat.not_lt.mpr h32
          simp [is_control_byte, hc, h32, this]
        · have : c < 32 := Nat.lt_of_not_le h32
          simp [is_control_byte, h32, this]
      rw [List.all_cons, List.all_cons, ih hrest, hctl]
  unfold passes_checks passes_tests
  rw [hall]

/-- On lists of paths without the byte DEL, `sanitizeIncludePaths` keeps exactly the paths
that pass the four checks of the specification. -/
theorem sanitizeIncludePaths_without_del (is_directory : List Byte → Bool)
    (paths : List (List Byte)) (hdel : ∀ path ∈ paths, 127 ∉ path) :
    CppInterOpProcess.sanitizeIncludePaths is_directory paths
      = paths.filter (passes_checks is_directory) := by
  rw [sanitizeIncludePaths_eq_filter]
  apply List.filter_congr
  intro path hp
  exact (passes_checks_eq_tests is_directory path (hdel path hp)).symm

/-- Claim C18, the code at the failing input. The path `"/a\x7f"` holds the control byte
DEL and exists as a directory. It fails check (b) of the specification, yet the scan of
`sanitizeIncludePaths`, which tests `c > 0 && c < 32`, finds nothing in it and the path is
returned; the list filtered by the four checks of the specification is empty. -/
theorem sanitizeIncludePaths_keeps_del :
    is_control_byte 127 = true ∧
    passes_checks (fun _ => true) [47, 97, 127] = false ∧
    [[47, 97, 127]].filter (passes_checks (fun _ => true)) = [] ∧
    CppInterOpProcess.has_invalid_chars [47, 97, 127] = false ∧
    CppInterOpProcess.sanitizeIncludePaths (fun _ => true) [[47, 97, 127]]
      = [[47, 97, 127]] := by
  decide

/-- A sample run of the filter: of the paths `"/usr"`, `"ab"`, `"rel/"`, `"/\x01b"` and `"/usr"`
again, with `"/usr"` and `"/\x01b"` existing as directories, the filter keeps the two
copies of `"/usr"`. -/
theorem sanitizeIncludePaths_filters_sample :
    CppInterOpProcess.sanitizeIncludePaths
        (fun p => p == [47, 117, 115, 114] || p == [47, 1, 98])
        [[47, 117, 115, 114], [97, 98], [114, 101, 108, 47], [47, 1, 98], [47, 117, 115, 114]]
      = [[47, 117, 115, 114], [47, 117, 115, 114]] := by
  decide

/-! ## The size of the mapping -/

/-- Claim C19, amended. For every requested size `r` and every system maximum `M` reported
by `getMaxShmSize` that is at least the record minimum `sizeof(SharedMemoryBuffer)`,
`validateShmSize(r)` returns a size that is at least the record minimum and at most `M`,
and it returns `r` itself whenever `sizeof(SharedMemoryBuffer) <= r <= M`. -/
theorem validateShmSize_clamps (shmmax : Option Nat) (min_size r : Nat)
    (hmin : min_size ≤ CppInterOpProcess.getMaxShmSize shmmax) :
    min_size ≤ CppInterOpProcess.validateShmSize (CppInterOpProcess.getMaxShmSize shmmax)
      min_size r ∧
    CppInterOpProcess.validateShmSize (CppInterOpProcess.getMaxShmSize shmmax) min_size r
      ≤ CppInterOpProcess.getMaxShmSize shmmax ∧
    (min_size ≤ r → r ≤ CppInterOpProcess.getMaxShmSize shmmax →
      CppInterOpProcess.validateShmSize (CppInterOpProcess.getMaxShmSize shmmax) min_size r
        = r) := by
  unfold CppInterOpProcess.validateShmSize
  refine ⟨?_, ?_, ?_⟩
  · split
    · exact hmin
    · split <;> omega
  · split
    · exact Nat.le_refl _
    · split <;> omega
  · intro h1 h2
    rw [if_neg (by omega), if_neg (by omega)]

/-- Witness of claim C19, amended: with no readable limit (`getMaxShmSize` gives 1 MiB) and
a record of 49200 bytes, the request of 65536 bytes is granted as it is. -/
theorem validateShmSize_clamps_witness :
    CppInterOpProcess.validateShmSize (CppInterOpProcess.getMaxShmSize none) 49200 65536
      = 65536 :=
  (validateShmSize_clamps none 49200 65536 (by decide)).2.2 (by decide) (by decide)

/-- Counterexample to claim C19 as stated: the system maximum read from the file is 4096
bytes and the record takes 49200 bytes (its size under the x86-64 layout; the four buffers
alone take 49152); for the request of 65536 bytes `validateShmSize` returns 4096, below the
record minimum, and for the request of 100 bytes it returns 49200, above the maximum. -/
theorem validateShmSize_counterexample :
    CppInterOpProcess.getMaxShmSize (some 4096) = 4096 ∧
    CppInterOpProcess.validateShmSize (CppInterOpProcess.getMaxShmSize (some 4096)) 49200 65536
      = 4096 ∧
    ¬ (49200 ≤ CppInterOpProcess.validateShmSize (CppInterOpProcess.getMaxShmSize (some 4096))
      49200 65536) ∧
    ¬ (CppInterOpProcess.validateShmSize (CppInterOpProcess.getMaxShmSize (some 4096)) 49200 100
      ≤ CppInterOpProcess.getMaxShmSize (some 4096)) := by
  decide

/-! ## Teardown of the worker -/

/-- What `cleanup()` of the worker does when the mailbox is mapped and the descriptor is
open. -/
theorem worker_cleanup_mapped (w : CppInterOpProcess) (buf : SharedMemoryBuffer)
    (hmap : w.m_shared_buffer = Mapping.mapped buf) (hfd : w.m_shm_fd ≠ -1) :
    w.cleanup
      = ({ w with m_interpreter := false, m_shared_buffer := Mapping.null, m_shm_fd := -1 },
         [SysCall.munmap, SysCall.close w.m_shm_fd, SysCall.shm_unlink w.m_shm_name]) := by
  obtain ⟨mi, sb, fd, running, name, size⟩ := w
  simp only at hmap hfd
  subst hmap
  cases mi <;> simp [CppInterOpProcess.cleanup, hfd]

/-- Claim C20, amended. On every exit path of the worker (a failure of the interpreter
start inside `initialize()`, and the destruction after `run()` has returned), the
`cleanup()` of the worker unmaps the mailbox, closes its descriptor and then unlinks the
named segment: `shm_unlink` on the segment name is called by the worker as well as by the
host. -/
theorem worker_cleanup_unlinks (w w0 : CppInterOpProcess) (buf content : SharedMemoryBuffer)
    (os : WorkerAnswers)
    (hmap : w.m_shared_buffer = Mapping.mapped buf) (hfd : w.m_shm_fd ≠ -1)
    (hopen : (CppInterOpProcess.shm_open_loop w0.m_shm_name os.shm_open 50 0).1 ≠ -1)
    (hmmap : os.mmap = some content) (hfail : os.create_interpreter ≠ some true) :
    (w.destruct.2
        = [SysCall.munmap, SysCall.close w.m_shm_fd, SysCall.shm_unlink w.m_shm_name] ∧
      w.destruct.1.m_shared_buffer = Mapping.null ∧ w.destruct.1.m_shm_fd = -1) ∧
    ((w0.initialize_worker os).1 = false ∧
      (w0.initialize_worker os).2.2
        = (CppInterOpProcess.shm_open_loop w0.m_shm_name os.shm_open 50 0).2 ++
          [SysCall.mmap (CppInterOpProcess.shm_open_loop w0.m_shm_name os.shm_open 50 0).1 true,
           SysCall.munmap,
           SysCall.close (CppInterOpProcess.shm_open_loop w0.m_shm_name os.shm_open 50 0).1,
           SysCall.shm_unlink w0.m_shm_name]) := by
  constructor
  · unfold CppInterOpProcess.destruct
    rw [worker_cleanup_mapped w buf hmap hfd]
    exact ⟨rfl, rfl, rfl⟩
  · obtain ⟨so, mm, ci⟩ := os
    simp only at hopen hmmap hfail
    subst hmmap
    have hstart : ∀ v : CppInterOpProcess,
        (CppInterOpProcess.initializeInterpreter v ci).1 = false ∧
        (CppInterOpProcess.initializeInterpreter v ci).2.m_shared_buffer = v.m_shared_buffer ∧
        (CppInterOpProcess.initializeInterpreter v ci).2.m_shm_fd = v.m_shm_fd ∧
        (CppInterOpProcess.initializeInterpreter v ci).2.m_shm_name = v.m_shm_name := by
      intro v
      cases ci with
      | none => exact ⟨rfl, rfl, rfl, rfl⟩
      | some b =>
        cases b with
        | false => exact ⟨rfl, rfl, rfl, rfl⟩
        | true => exact absurd rfl hfail
    simp only [CppInterOpProcess.initialize_worker, hopen, if_false]
    obtain ⟨h1, h2, h3, h4⟩ := hstart
      { w0 with
        m_shm_fd := (CppInterOpProcess.shm_open_loop w0.m_shm_name so 50 0).1,
        m_shared_buffer := Mapping.mapped content.reset }
    simp only [h1, Bool.not_false, if_true]
    rw [worker_cleanup_mapped _ content.reset (by rw [h2]) (by rw [h3]; exact hopen), h3, h4]
    simp

/-- Witness of claim C20, amended: the destructor of the running sample worker makes the
three calls `munmap`, `close(3)` and `shm_unlink("/xcpp_shm_100")`. -/
theorem worker_cleanup_unlinks_witness :
    running_worker.destruct.2
      = [SysCall.munmap, SysCall.close 3, SysCall.shm_unlink "/xcpp_shm_100"] :=
  (worker_cleanup_unlinks running_worker
    (CppInterOpProcess.construct "/xcpp_shm_100" 49200 1048576 49200) zeroed_buffer
    zeroed_buffer no_interpreter_answers rfl (by decide) (by decide) rfl (by decide)).1.1

/-- Counterexample to claim C20 as stated. The running sample worker receives `SHUTDOWN`,
`run()` returns and the destructor runs `cleanup()`: its calls end with
`shm_unlink("/xcpp_shm_100")`. A worker whose interpreter start fails runs `cleanup()`
inside `initialize()`: the calls of `initialize()` end with `shm_unlink("/xcpp_shm_100")`
too. -/
theorem worker_unlinks_counterexample :
    (∃ w' : CppInterOpProcess,
      CppInterOpProcess.run sample_interpreter
          [CppInterOpClient.shutdown_request zeroed_buffer] running_worker = .ok (some w') ∧
      w'.destruct.2
        = [SysCall.munmap, SysCall.close 3, SysCall.shm_unlink "/xcpp_shm_100"]) ∧
    ((CppInterOpProcess.construct "/xcpp_shm_100" 49200 1048576 49200).initialize_worker
        no_interpreter_answers).1 = false ∧
    ((CppInterOpProcess.construct "/xcpp_shm_100" 49200 1048576 49200).initialize_worker
        no_interpreter_answers).2.2
      = [SysCall.shm_open "/xcpp_shm_100" 3, SysCall.mmap 3 true, SysCall.munmap,
         SysCall.close 3, SysCall.shm_unlink "/xcpp_shm_100"] :=
  ⟨⟨_, rfl, rfl⟩, rfl, rfl⟩
